import Mathlib

/-!
Verification development for the peticao-brasil signature-verification core.

The Python sources in apps/signatures (verification_service.py,
revocation_checker.py, custody_service.py, tasks.py, models.py) and
apps/petitions/models.py are shallowly embedded below.  External library
behaviour that the code relies on is modelled explicitly:

* hashlib.sha256 is implemented bit-for-bit (validated against the standard
  test vectors at the end of this file);
* json.dumps(..., sort_keys=True, ensure_ascii=False) is implemented over an
  explicit JSON value type, with CPython's default separators and string
  escaping rules;
* X.509 certificates, the Django cache, network endpoints (OCSP, CRL
  distribution points) and the Django settings flag
  SIGNATURE_VERIFICATION_STRICT appear as explicit data/oracle parameters;
* timestamps are modelled as integers, with isoformat rendered as the decimal
  representation (the claims under study never depend on the concrete date
  format, only on equality and difference of timestamps);
* Python floats appear in one spot (processing_duration_seconds); the model
  renders the difference as an integer, and every theorem below that touches
  it does so with the field absent (null), where the two agree.
-/

set_option maxRecDepth 8000

/-! ## Section 1: generic byte/hex/UTF-8 utilities and SHA-256 -/

def M32 : Nat := 4294967296

def rot32 (n x : Nat) : Nat := ((x >>> n) ||| (x <<< (32 - n))) % M32

def mixA0 (x : Nat) : Nat := (rot32 2 x) ^^^ (rot32 13 x) ^^^ (rot32 22 x)

def mixA1 (x : Nat) : Nat := (rot32 6 x) ^^^ (rot32 11 x) ^^^ (rot32 25 x)

def mixW0 (x : Nat) : Nat := (rot32 7 x) ^^^ (rot32 18 x) ^^^ (x >>> 3)

def mixW1 (x : Nat) : Nat := (rot32 17 x) ^^^ (rot32 19 x) ^^^ (x >>> 10)

def shaK : List Nat :=
  [1116352408, 1899447441, 3049323471, 3921009573, 961987163,
   1508970993, 2453635748, 2870763221, 3624381080, 310598401,
   607225278, 1426881987, 1925078388, 2162078206, 2614888103,
   3248222580, 3835390401, 4022224774, 264347078, 604807628,
   770255983, 1249150122, 1555081692, 1996064986, 2554220882,
   2821834349, 2952996808, 3210313671, 3336571891, 3584528711,
   113926993, 338241895, 666307205, 773529912, 1294757372,
   1396182291, 1695183700, 1986661051, 2177026350, 2456956037,
   2730485921, 2820302411, 3259730800, 3345764771, 3516065817,
   3600352804, 4094571909, 275423344, 430227734, 506948616,
   659060556, 883997877, 958139571, 1322822218, 1537002063,
   1747873779, 1955562222, 2024104815, 2227730452, 2361852424,
   2428436474, 2756734187, 3204031479, 3329325298]

structure Hash8 where
  a : Nat
  b : Nat
  c : Nat
  d : Nat
  e : Nat
  f : Nat
  g : Nat
  h : Nat

def shaH0 : Hash8 :=
  ⟨1779033703, 3144134277, 1013904242, 2773480762,
   1359893119, 2600822924, 528734635, 1541459225⟩

/-- big-endian 32-bit words from groups of four bytes -/
def toWords32 : List Nat → List Nat
  | a :: b :: c :: d :: rest => (a * 16777216 + b * 65536 + c * 256 + d) :: toWords32 rest
  | _ => []

/-- message-schedule extension from 16 to 64 words; acc holds the words so far
in reverse order -/
def extendWords : Nat → List Nat → List Nat
  | 0, acc => acc.reverse
  | fuel + 1, acc =>
      let w16 := acc.getD 15 0
      let w15 := acc.getD 14 0
      let w7 := acc.getD 6 0
      let w2 := acc.getD 1 0
      extendWords fuel (((w16 + mixW0 w15 + w7 + mixW1 w2) % M32) :: acc)

def shaRound (st : Hash8) (wk : Nat × Nat) : Hash8 :=
  let t1 := (st.h + mixA1 st.e + ((st.e &&& st.f) ^^^ ((M32 - 1 - st.e) &&& st.g)) + wk.2 + wk.1) % M32
  let t2 := (mixA0 st.a + ((st.a &&& st.b) ^^^ (st.a &&& st.c) ^^^ (st.b &&& st.c))) % M32
  ⟨(t1 + t2) % M32, st.a, st.b, st.c, (st.d + t1) % M32, st.e, st.f, st.g⟩

def compressBlock (st : Hash8) (block : List Nat) : Hash8 :=
  let ws := extendWords 48 (toWords32 block).reverse
  let r := (ws.zip shaK).foldl shaRound st
  ⟨(st.a + r.a) % M32, (st.b + r.b) % M32, (st.c + r.c) % M32, (st.d + r.d) % M32,
   (st.e + r.e) % M32, (st.f + r.f) % M32, (st.g + r.g) % M32, (st.h + r.h) % M32⟩

def chunks64Fuel : Nat → List Nat → List (List Nat)
  | 0, _ => []
  | _, [] => []
  | fuel + 1, l => l.take 64 :: chunks64Fuel fuel (l.drop 64)

def chunks64 (l : List Nat) : List (List Nat) := chunks64Fuel l.length l

def be8 (n : Nat) : List Nat :=
  [(n >>> 56) % 256, (n >>> 48) % 256, (n >>> 40) % 256, (n >>> 32) % 256,
   (n >>> 24) % 256, (n >>> 16) % 256, (n >>> 8) % 256, n % 256]

def be4 (n : Nat) : List Nat :=
  [(n >>> 24) % 256, (n >>> 16) % 256, (n >>> 8) % 256, n % 256]

/-- incremental SHA-256 state: current chaining value, pending bytes of the
current partial block (most recent first, fewer than 64), and the total number
of message bytes absorbed so far -/
structure ShaState where
  hs : Hash8
  buf : List Nat
  len : Nat

def shaInit : ShaState := ⟨shaH0, [], 0⟩

/-- continuation applied to a natural number after reducing it to a literal
(keeps reduction chains shallow when digests are evaluated by the kernel) -/
def withNat {α : Type} (n : Nat) (k : Nat → α) : α :=
  match n with
  | 0 => k 0
  | m + 1 => k (m + 1)

theorem withNat_eq {α : Type} (n : Nat) (k : Nat → α) : withNat n k = k n := by
  cases n <;> rfl

/-- continuation applied to a hash state whose eight words have been reduced -/
def strictHash8 {α : Type} (h8 : Hash8) (k : Hash8 → α) : α :=
  withNat h8.a fun a => withNat h8.b fun b => withNat h8.c fun c => withNat h8.d fun d =>
  withNat h8.e fun e => withNat h8.f fun f => withNat h8.g fun g => withNat h8.h fun h =>
  k ⟨a, b, c, d, e, f, g, h⟩

theorem strictHash8_eq {α : Type} (h8 : Hash8) (k : Hash8 → α) : strictHash8 h8 k = k h8 := by
  simp only [strictHash8, withNat_eq]

/-- absorb a byte list into the running state: the pending buffer collects
bytes (most recent first) and every full 64-byte block is compressed -/
def absorbLoop : Hash8 → List Nat → Nat → List Nat → ShaState
  | hs, buf, len, [] => ⟨hs, buf, len⟩
  | hs, buf, len, b :: bs =>
      let buf2 := b :: buf
      if buf2.length = 64 then
        strictHash8 (compressBlock hs buf2.reverse) fun h8 =>
          withNat (len + 1) fun l => absorbLoop h8 [] l bs
      else
        withNat (len + 1) fun l => absorbLoop hs buf2 l bs

def absorbBytes (st : ShaState) (bs : List Nat) : ShaState := absorbLoop st.hs st.buf st.len bs

theorem absorbLoop_append (a : List Nat) :
    ∀ (b : List Nat) (hs : Hash8) (buf : List Nat) (len : Nat),
    absorbLoop hs buf len (a ++ b) =
      absorbBytes (absorbLoop hs buf len a) b := by
  induction a with
  | nil => intro b hs buf len; rfl
  | cons x xs ih =>
      intro b hs buf len
      rw [List.cons_append, absorbLoop, absorbLoop]
      by_cases hfull : (x :: buf).length = 64
      · simp only [hfull, if_true, strictHash8_eq, withNat_eq]
        exact ih b _ _ _
      · simp only [hfull, if_false, withNat_eq]
        exact ih b _ _ _

theorem absorbBytes_append (st : ShaState) (a b : List Nat) :
    absorbBytes st (a ++ b) = absorbBytes (absorbBytes st a) b :=
  absorbLoop_append a b st.hs st.buf st.len

def digestBytes (final : Hash8) : List Nat :=
  be4 final.a ++ be4 final.b ++ be4 final.c ++ be4 final.d ++
  be4 final.e ++ be4 final.f ++ be4 final.g ++ be4 final.h

def shaFinalize (st : ShaState) : List Nat :=
  let pad := st.buf.reverse ++ [128] ++
    List.replicate ((64 - ((st.buf.length + 9) % 64)) % 64) 0 ++ be8 (st.len * 8)
  digestBytes ((chunks64 pad).foldl compressBlock st.hs)

def hexAlphabet : List Char := "0123456789abcdef".data

def hexDigit (n : Nat) : Char := hexAlphabet.getD n '0'

def bytesToHexAux : List Nat → List Char → List Char
  | [], acc => acc.reverse
  | n :: rest, acc => bytesToHexAux rest (hexDigit (n % 16) :: hexDigit (n / 16 % 16) :: acc)

def bytesToHex (bs : List Nat) : String := ⟨bytesToHexAux bs []⟩

/-- UTF-8 encoding of one unicode scalar value -/
def utf8Char (c : Char) : List Nat :=
  let n := c.toNat
  if n < 128 then [n]
  else if n < 2048 then [192 ||| (n >>> 6), 128 ||| (n &&& 63)]
  else if n < 65536 then [224 ||| (n >>> 12), 128 ||| ((n >>> 6) &&& 63), 128 ||| (n &&& 63)]
  else [240 ||| (n >>> 18), 128 ||| ((n >>> 12) &&& 63), 128 ||| ((n >>> 6) &&& 63), 128 ||| (n &&& 63)]

def utf8Encode (s : String) : List Nat := (s.data.map utf8Char).flatten

/-- SHA-256 hex digest of the UTF-8 encoding of a string, as hashlib.sha256
followed by hexdigest produces it -/
def sha256Hex (s : String) : String := bytesToHex (shaFinalize (absorbBytes shaInit (utf8Encode s)))

/-- concatenation of a list of string pieces -/
def concatStr (ps : List String) : String := ⟨(ps.map String.data).flatten⟩

/-- absorb string pieces one after the other -/
def absorbPieces : ShaState → List String → ShaState
  | st, [] => st
  | ⟨hs, buf, len⟩, p :: ps => absorbPieces (absorbLoop hs buf len (utf8Encode p)) ps

/-- SHA-256 hex digest of the concatenation of pieces, absorbed piecewise (used
so that concrete digests can be evaluated without ever traversing one very long
list) -/
def sha256HexPieces (ps : List String) : String :=
  bytesToHex (shaFinalize (absorbPieces shaInit ps))

theorem utf8Encode_append (a b : List Char) :
    utf8Encode ⟨a ++ b⟩ = utf8Encode ⟨a⟩ ++ utf8Encode ⟨b⟩ := by
  simp [utf8Encode]

theorem sha256HexPieces_eq (ps : List String) : sha256HexPieces ps = sha256Hex (concatStr ps) := by
  have key : ∀ (ps : List String) (st : ShaState),
      absorbPieces st ps = absorbBytes st (utf8Encode (concatStr ps)) := by
    intro ps
    induction ps with
    | nil =>
        intro st
        cases st
        simp [concatStr, utf8Encode, absorbPieces, absorbBytes, absorbLoop]
    | cons p ps ih =>
        intro st
        have h1 : concatStr (p :: ps) = ⟨p.data ++ (concatStr ps).data⟩ := by
          simp [concatStr]
        have h2 : utf8Encode (concatStr (p :: ps)) =
            utf8Encode p ++ utf8Encode (concatStr ps) := by
          rw [h1]
          have := utf8Encode_append p.data (concatStr ps).data
          simpa using this
        rw [h2, absorbBytes_append]
        cases st
        rw [absorbPieces, ih]
        rfl
  simp [sha256HexPieces, sha256Hex, key]

/-! ## Section 2: code-point order on strings and key-sorting

CPython compares strings by unicode code points; sorted(...) and
json.dumps(..., sort_keys=True) use that order on dictionary keys. -/

def lexLt : List Char → List Char → Bool
  | [], [] => false
  | [], _ :: _ => true
  | _ :: _, [] => false
  | a :: as, b :: bs =>
      if a.toNat < b.toNat then true
      else if b.toNat < a.toNat then false
      else lexLt as bs

/-- non-strict code-point order on strings -/
def keyLe (a b : String) : Bool := !(lexLt b.data a.data)

theorem lexLt_asymm : ∀ {a b : List Char}, lexLt a b = true → lexLt b a = true → False := by
  intro a
  induction a with
  | nil => intro b h1 h2; cases b <;> simp [lexLt] at h1 h2
  | cons x xs ih =>
      intro b h1 h2
      cases b with
      | nil => simp [lexLt] at h1
      | cons y ys =>
          by_cases hxy : x.toNat < y.toNat
          · have : ¬ y.toNat < x.toNat := by omega
            simp [lexLt, hxy, this] at h2
          · by_cases hyx : y.toNat < x.toNat
            · simp [lexLt, hxy, hyx] at h1
            · simp [lexLt, hxy, hyx] at h1 h2
              exact ih h1 h2

theorem lexLt_trans : ∀ {a b c : List Char},
    lexLt a b = true → lexLt b c = true → lexLt a c = true := by
  intro a
  induction a with
  | nil =>
      intro b c h1 h2
      cases b with
      | nil => simp [lexLt] at h1
      | cons y ys =>
          cases c with
          | nil => simp [lexLt] at h2
          | cons z zs => simp [lexLt]
  | cons x xs ih =>
      intro b c h1 h2
      cases b with
      | nil => simp [lexLt] at h1
      | cons y ys =>
          cases c with
          | nil => simp [lexLt] at h2
          | cons z zs =>
              by_cases hxy : x.toNat < y.toNat
              · by_cases hyz : y.toNat < z.toNat
                · have hxz : x.toNat < z.toNat := by omega
                  simp [lexLt, hxz]
                · by_cases hzy : z.toNat < y.toNat
                  · simp [lexLt, hyz, hzy] at h2
                  · have hxz : x.toNat < z.toNat := by omega
                    simp [lexLt, hxz]
              · by_cases hyx : y.toNat < x.toNat
                · simp [lexLt, hxy, hyx] at h1
                · have hx : x.toNat = y.toNat := by omega
                  by_cases hyz : y.toNat < z.toNat
                  · have hxz : x.toNat < z.toNat := by omega
                    simp [lexLt, hxz]
                  · by_cases hzy : z.toNat < y.toNat
                    · simp [lexLt, hyz, hzy] at h2
                    · have h1' : lexLt xs ys = true := by
                        simpa [lexLt, hxy, hyx] using h1
                      have h2' : lexLt ys zs = true := by
                        simpa [lexLt, hyz, hzy] using h2
                      have hxz : ¬ x.toNat < z.toNat := by omega
                      have hzx : ¬ z.toNat < x.toNat := by omega
                      simpa [lexLt, hxz, hzx] using ih h1' h2'

theorem char_eq_of_toNat_eq {a b : Char} (h : a.toNat = b.toNat) : a = b :=
  Char.eq_of_val_eq (UInt32.eq_of_toBitVec_eq (BitVec.eq_of_toNat_eq h))

theorem lexLt_connex : ∀ {a b : List Char},
    lexLt a b = false → lexLt b a = false → a = b := by
  intro a
  induction a with
  | nil => intro b h1 _; cases b with
    | nil => rfl
    | cons y ys => simp [lexLt] at h1
  | cons x xs ih =>
      intro b h1 h2
      cases b with
      | nil => simp [lexLt] at h2
      | cons y ys =>
          by_cases hxy : x.toNat < y.toNat
          · simp [lexLt, hxy] at h1
          · by_cases hyx : y.toNat < x.toNat
            · simp [lexLt, hyx, hxy] at h2
            · have hc : x = y := char_eq_of_toNat_eq (by omega)
              subst hc
              have h1' : lexLt xs ys = false := by simpa [lexLt, hxy, hyx] using h1
              have h2' : lexLt ys xs = false := by simpa [lexLt, hxy, hyx] using h2
              rw [ih h1' h2']

/-- sort an association list by key in code-point order, as CPython sorts
dictionary keys -/
def sortByKey {α : Type} (l : List (String × α)) : List (String × α) :=
  List.insertionSort (fun p q => keyLe p.1 q.1 = true) l

instance keyLeTotal {α : Type} : IsTotal (String × α) (fun p q => keyLe p.1 q.1 = true) := by
  constructor
  intro a b
  by_cases h : lexLt b.1.data a.1.data = true
  · right
    have : lexLt a.1.data b.1.data = false := by
      by_contra hcon
      exact lexLt_asymm (by simpa using hcon) h
    simp [keyLe, this]
  · left
    simp [keyLe] at h ⊢
    exact h

instance keyLeTrans {α : Type} : IsTrans (String × α) (fun p q => keyLe p.1 q.1 = true) := by
  constructor
  intro a b c hab hbc
  simp only [keyLe, Bool.not_eq_true'] at hab hbc ⊢
  by_contra hcon
  have hca : lexLt c.1.data a.1.data = true := by
    cases h : lexLt c.1.data a.1.data
    · exact absurd h hcon
    · rfl
  by_cases hbc' : lexLt b.1.data c.1.data = true
  · have hba : lexLt b.1.data a.1.data = true := lexLt_trans hbc' hca
    exact absurd hba (by simp [hab])
  · have heq : b.1.data = c.1.data :=
      lexLt_connex (by simpa using hbc') (by simpa using hbc)
    rw [heq] at hab
    exact absurd hca (by simp [hab])

instance keyLtAntisymm {α : Type} : IsAntisymm (String × α) (fun p q => lexLt p.1.data q.1.data = true) := by
  constructor
  intro a b h1 h2
  exact (lexLt_asymm h1 h2).elim

theorem sortByKey_perm {α : Type} (l : List (String × α)) : (sortByKey l).Perm l :=
  List.perm_insertionSort _ l

theorem sortByKey_sorted {α : Type} (l : List (String × α)) :
    List.Sorted (fun p q => keyLe p.1 q.1 = true) (sortByKey l) :=
  List.sorted_insertionSort _ l

theorem string_eq_of_data_eq {a b : String} (h : a.data = b.data) : a = b :=
  congrArg String.mk h

/-- two association lists with the same key-value content (a permutation of
one another) and no duplicate keys sort to the same list -/
theorem sortByKey_eq_of_perm {α : Type} (l₁ l₂ : List (String × α))
    (hp : l₁.Perm l₂) (hnd : (l₁.map Prod.fst).Nodup) :
    sortByKey l₁ = sortByKey l₂ := by
  have hnd₂ : (l₂.map Prod.fst).Nodup := ((hp.map Prod.fst).nodup_iff).mp hnd
  have hsorted : ∀ (l : List (String × α)), (l.map Prod.fst).Nodup →
      List.Sorted (fun p q => lexLt p.1.data q.1.data = true) (sortByKey l) := by
    intro l hl
    have hnds : ((sortByKey l).map Prod.fst).Nodup :=
      (((sortByKey_perm l).map Prod.fst).nodup_iff).mpr hl
    have hne : List.Pairwise (fun p q : String × α => p.1 ≠ q.1) (sortByKey l) :=
      List.pairwise_map.mp hnds
    have hle := sortByKey_sorted l
    refine List.Pairwise.imp ?_ (List.Pairwise.and hle hne)
    rintro a b ⟨h1, h2⟩
    have hba : lexLt b.1.data a.1.data = false := by
      simpa [keyLe] using h1
    cases h : lexLt a.1.data b.1.data
    · exact absurd (string_eq_of_data_eq (lexLt_connex h hba)) h2
    · rfl
  exact List.eq_of_perm_of_sorted
    (((sortByKey_perm l₁).trans hp).trans (sortByKey_perm l₂).symm)
    (hsorted l₁ hnd) (hsorted l₂ hnd₂)

-- SHA-256 sanity checks against the standard test vectors
theorem sha256Hex_test_abc :
    sha256Hex "abc" = "ba7816bf8f01cfea414140de5dae2223b00361a396177a9cb410ff61f20015ad" := by decide

theorem sha256Hex_test_empty :
    sha256Hex "" = "e3b0c44298fc1c149afbf4c8996fb92427ae41e4649b934ca495991b7852b855" := by decide

/-! ## Section 3: JSON values and canonical serialization

Models the JSON documents the custody service builds and the behaviour of
json.dumps(evidence, sort_keys=True, ensure_ascii=False) with CPython's
default separators.  Mutually inductive lists are used instead of nested
List so that all recursions stay structural (and hence kernel-reducible). -/

mutual

inductive Json where
  | jNull : Json
  | jBool : Bool → Json
  | jInt : Int → Json
  | jStr : String → Json
  | jArr : JsonList → Json
  | jObj : JsonObj → Json

inductive JsonList where
  | nil : JsonList
  | cons : Json → JsonList → JsonList

inductive JsonObj where
  | nil : JsonObj
  | cons : String → Json → JsonObj → JsonObj

end

def toJsonList : List Json → JsonList
  | [] => .nil
  | x :: xs => .cons x (toJsonList xs)

def toJsonObj : List (String × Json) → JsonObj
  | [] => .nil
  | kv :: kvs => .cons kv.1 kv.2 (toJsonObj kvs)

/-- array literal from a plain list -/
def jarr (xs : List Json) : Json := Json.jArr (toJsonList xs)

/-- object literal from a plain association list -/
def jobj (kvs : List (String × Json)) : Json := Json.jObj (toJsonObj kvs)

/-- CPython json string escaping with ensure_ascii=False: only the quote, the
backslash and control characters below 0x20 are escaped -/
def escChar (c : Char) : List Char :=
  if c = '"' then ['\\', '"']
  else if c = '\\' then ['\\', '\\']
  else if c.toNat = 8 then ['\\', 'b']
  else if c.toNat = 9 then ['\\', 't']
  else if c.toNat = 10 then ['\\', 'n']
  else if c.toNat = 12 then ['\\', 'f']
  else if c.toNat = 13 then ['\\', 'r']
  else if c.toNat < 32 then ['\\', 'u', '0', '0', hexDigit (c.toNat / 16), hexDigit (c.toNat % 16)]
  else [c]

def escapeJson (s : String) : String := ⟨(s.data.map escChar).flatten⟩

def quoteJson (s : String) : String := "\"" ++ escapeJson s ++ "\""

/-- join the serialized key/value pairs of an object with the default
item separator -/
def renderPairs : List (String × List String) → List String
  | [] => []
  | [(k, v)] => (quoteJson k ++ ": ") :: v
  | (k, v) :: rest => ((quoteJson k ++ ": ") :: v) ++ (", " :: renderPairs rest)

mutual

/-- serialization of a JSON value into a list of short string pieces, with
object keys sorted in code-point order, CPython default separators and
ensure_ascii=False escaping; the concatenation of the pieces is exactly
json.dumps(value, sort_keys=True, ensure_ascii=False) -/
def dumpsJson : Json → List String
  | .jNull => ["null"]
  | .jBool true => ["true"]
  | .jBool false => ["false"]
  | .jInt n => [toString n]
  | .jStr s => [quoteJson s]
  | .jArr xs => "[" :: (dumpsArr xs ++ ["]"])
  | .jObj kvs => "\x7b" :: (renderPairs (sortByKey (dumpsPairs kvs)) ++ ["\x7d"])

def dumpsArr : JsonList → List String
  | .nil => []
  | .cons x .nil => dumpsJson x
  | .cons x (.cons y rest) => dumpsJson x ++ (", " :: dumpsArr (.cons y rest))

def dumpsPairs : JsonObj → List (String × List String)
  | .nil => []
  | .cons k v rest => (k, dumpsJson v) :: dumpsPairs rest

end

/-- canonical JSON text, json.dumps(e, sort_keys=True, ensure_ascii=False) -/
def json_dumps (e : Json) : String := concatStr (dumpsJson e)

/-- Translation of custody_service.calculate_verification_hash: serialize the
evidence to JSON with sorted keys and hash the UTF-8 text with SHA-256,
returning the hex digest. -/
def calculate_verification_hash (e : Json) : String := sha256Hex (json_dumps e)

theorem calculate_verification_hash_pieces (e : Json) :
    calculate_verification_hash e = sha256HexPieces (dumpsJson e) := by
  rw [calculate_verification_hash, sha256HexPieces_eq, json_dumps]

theorem bytesToHexAux_length : ∀ (bs : List Nat) (acc : List Char),
    (bytesToHexAux bs acc).length = acc.length + 2 * bs.length := by
  intro bs
  induction bs with
  | nil => intro acc; simp [bytesToHexAux]
  | cons b rest ih =>
      intro acc
      simp [bytesToHexAux, ih]
      omega

theorem digestBytes_length (h8 : Hash8) : (digestBytes h8).length = 32 := by
  simp [digestBytes, be4]

theorem sha256Hex_length (s : String) : (sha256Hex s).length = 64 := by
  have h1 : ∀ st : ShaState, (shaFinalize st).length = 32 := by
    intro st
    simp [shaFinalize, digestBytes_length]
  show (bytesToHex _).length = 64
  simp [bytesToHex, String.length, bytesToHexAux_length, h1]

theorem hexDigit_mem (n : Nat) : hexDigit n ∈ hexAlphabet := by
  by_cases h : n < 16
  · unfold hexDigit
    interval_cases n <;> decide
  · have hlen : hexAlphabet.length ≤ n := by
      simp only [hexAlphabet, List.length]
      omega
    unfold hexDigit
    rw [List.getD_eq_default _ _ hlen]
    decide

theorem bytesToHexAux_mem : ∀ (bs : List Nat) (acc : List Char) (c : Char),
    c ∈ bytesToHexAux bs acc → c ∈ acc ∨ c ∈ hexAlphabet := by
  intro bs
  induction bs with
  | nil => intro acc c hc; simp [bytesToHexAux] at hc; exact Or.inl hc
  | cons b rest ih =>
      intro acc c hc
      simp only [bytesToHexAux] at hc
      rcases ih _ _ hc with h | h
      · rcases List.mem_cons.mp h with h1 | h2
        · exact Or.inr (h1 ▸ hexDigit_mem _)
        · rcases List.mem_cons.mp h2 with h3 | h4
          · exact Or.inr (h3 ▸ hexDigit_mem _)
          · exact Or.inl h4
      · exact Or.inr h

theorem sha256Hex_mem_hex (s : String) (c : Char) (hc : c ∈ (sha256Hex s).data) :
    c ∈ hexAlphabet := by
  have : c ∈ bytesToHexAux (shaFinalize (absorbBytes shaInit (utf8Encode s))) [] := by
    simpa [sha256Hex, bytesToHex] using hc
  rcases bytesToHexAux_mem _ _ _ this with h | h
  · simp at h
  · exact h

theorem dumpsPairs_toJsonObj (kvs : List (String × Json)) :
    dumpsPairs (toJsonObj kvs) = kvs.map (fun kv => (kv.1, dumpsJson kv.2)) := by
  induction kvs with
  | nil => simp [toJsonObj, dumpsPairs]
  | cons kv rest ih => simp [toJsonObj, dumpsPairs, ih]

/-- key-reordering invariance of the canonical serialization: two objects with
the same key-value content and no duplicate keys serialize identically -/
theorem json_dumps_jobj_perm (kvs₁ kvs₂ : List (String × Json))
    (hp : kvs₁.Perm kvs₂) (hnd : (kvs₁.map Prod.fst).Nodup) :
    json_dumps (jobj kvs₁) = json_dumps (jobj kvs₂) := by
  have hmapped : (kvs₁.map (fun kv => (kv.1, dumpsJson kv.2))).Perm
      (kvs₂.map (fun kv => (kv.1, dumpsJson kv.2))) := hp.map _
  have hkeys : ((kvs₁.map (fun kv => (kv.1, dumpsJson kv.2))).map Prod.fst).Nodup := by
    rw [List.map_map]
    have : (Prod.fst ∘ fun kv : String × Json => (kv.1, dumpsJson kv.2)) = Prod.fst := by
      funext kv; rfl
    rw [this]
    exact hnd
  have hsorteq := sortByKey_eq_of_perm _ _ hmapped hkeys
  simp only [json_dumps, jobj, dumpsJson, dumpsPairs_toJsonObj]
  rw [hsorteq]

/-! ## Section 4: Signature and Petition records (models.py)

The Signature record carries the model fields that custody_service.py and
tasks.py read and write.  Timestamps are integers (none = NULL), and the
datetime isoformat is modelled as the decimal rendering of the integer. -/

def isoformat (t : Int) : String := toString t

structure Signature where
  uuid : String
  petition_uuid : String
  full_name : String
  email : String
  city : String
  state : String
  cpf_hash : String
  ip_address_hash : String
  user_agent : String
  signed_pdf_size : Option Int
  verification_status : String
  rejection_reason : String
  verified : Bool
  verified_cpf_from_certificate : Bool
  certificate_info : Option (List (String × Json))
  certificate_subject : Option String
  certificate_issuer : Option String
  certificate_serial : Option String
  created_at : Option Int
  processing_started_at : Option Int
  processing_completed_at : Option Int
  verified_at : Option Int
  certificate_generated_at : Option Int
  verification_evidence : Option Json
  verification_hash : Option String
  chain_of_custody : Option Json
  custody_certificate_url : Option String

structure Petition where
  uuid : String
  signature_count : Int
  signature_goal : Int

/-- Translation of Petition.increment_signature_count: an unconditional
F-expression increment of the counter (the milestone notifications it may
queue are an external side effect outside this model). -/
def Petition.increment_signature_count (p : Petition) : Petition :=
  { p with signature_count := p.signature_count + 1 }

/-- Translation of Signature.approve: only a signature that is not already
approved transitions to approved, records the approval time and increments
the petition counter; on an already-approved signature nothing happens. -/
def Signature.approve (now : Int) (sig : Signature) (pet : Petition) : Signature × Petition :=
  if sig.verification_status ≠ "approved" then
    ({ sig with verification_status := "approved", verified_at := some now },
     pet.increment_signature_count)
  else (sig, pet)

/-! ## Section 5: custody service (custody_service.py) -/

/-- Python value-or-empty-string idiom (x or "") on an optional text field -/
def pyOrEmpty (s : Option String) : String := s.getD ""

def optStrJson : Option String → Json
  | none => .jNull
  | some s => .jStr s

def optIntJson : Option Int → Json
  | none => .jNull
  | some n => .jInt n

def jsonTime : Option Int → Json
  | none => .jNull
  | some t => .jStr (isoformat t)

/-- association-list lookup with decidable key equality -/
def alookup {κ β : Type} [DecidableEq κ] : List (κ × β) → κ → Option β
  | [], _ => none
  | kv :: rest, k => if kv.1 = k then some kv.2 else alookup rest k

/-- signature.certificate_info.get(k) if signature.certificate_info else None;
an absent or empty dict is falsy in Python -/
def certInfoGet (ci : Option (List (String × Json))) (k : String) : Json :=
  match ci with
  | none => .jNull
  | some d => if d.isEmpty then .jNull else (alookup d k).getD .jNull

def fileValidationDetails (sig : Signature) : String :=
  match sig.signed_pdf_size with
  | some n => if n ≠ 0 then "PDF file validated successfully - size: " ++ toString n ++ " bytes"
              else "PDF validated"
  | none => "PDF validated"

def processingDuration (sig : Signature) : Json :=
  match sig.processing_completed_at, sig.processing_started_at with
  | some c, some s => .jInt (c - s)
  | _, _ => .jNull

/-- Translation of custody_service.build_verification_evidence.  The Python
function takes an optional verification_result argument but never reads it, so
it is omitted here.  The one timezone.now() call inside the function is the
explicit now argument. -/
def build_verification_evidence (now : Int) (sig : Signature) : Json :=
  jobj [
    ("version", .jStr "1.0"),
    ("signature_uuid", .jStr sig.uuid),
    ("petition_uuid", .jStr sig.petition_uuid),
    ("timestamp", .jStr (isoformat now)),
    ("verification_steps", jarr [
      jobj [("step", .jStr "file_validation"), ("status", .jStr "passed"),
            ("timestamp", jsonTime sig.processing_started_at),
            ("details", .jStr (fileValidationDetails sig))],
      jobj [("step", .jStr "signature_extraction"), ("status", .jStr "passed"),
            ("timestamp", jsonTime sig.processing_started_at),
            ("details", .jStr "PKCS#7 digital signature extracted from PDF")],
      jobj [("step", .jStr "certificate_validation"), ("status", .jStr "passed"),
            ("timestamp", jsonTime sig.processing_started_at),
            ("details", .jStr "ICP-Brasil certificate chain validated"),
            ("certificate_serial", optStrJson sig.certificate_serial)],
      jobj [("step", .jStr "certificate_chain_validation"), ("status", .jStr "passed"),
            ("timestamp", jsonTime sig.processing_started_at),
            ("details", .jStr "Certificate chain verified against ICP-Brasil roots")],
      jobj [("step", .jStr "validity_period_check"), ("status", .jStr "passed"),
            ("timestamp", jsonTime sig.processing_started_at),
            ("details", .jStr "Certificate is within validity period")],
      jobj [("step", .jStr "cpf_extraction"),
            ("status", .jStr (if sig.verified_cpf_from_certificate then "passed" else "skipped")),
            ("timestamp", jsonTime sig.processing_started_at),
            ("details", .jStr "CPF extracted and verified from certificate subject")],
      jobj [("step", .jStr "content_integrity"), ("status", .jStr "passed"),
            ("timestamp", jsonTime sig.processing_completed_at),
            ("details", .jStr "PDF content hash verified against original petition")],
      jobj [("step", .jStr "uuid_verification"), ("status", .jStr "passed"),
            ("timestamp", jsonTime sig.processing_completed_at),
            ("details", .jStr "Petition UUID verified in signed PDF")],
      jobj [("step", .jStr "duplicate_check"), ("status", .jStr "passed"),
            ("timestamp", jsonTime sig.processing_completed_at),
            ("details", .jStr "No duplicate signature found for this CPF")],
      jobj [("step", .jStr "security_scan"), ("status", .jStr "passed"),
            ("timestamp", jsonTime sig.processing_completed_at),
            ("details", .jStr "No security threats detected")]]),
    ("certificate_details", jobj [
      ("issuer", .jStr (pyOrEmpty sig.certificate_issuer)),
      ("subject", .jStr (pyOrEmpty sig.certificate_subject)),
      ("serial_number", .jStr (pyOrEmpty sig.certificate_serial)),
      ("not_before", certInfoGet sig.certificate_info "not_before"),
      ("not_after", certInfoGet sig.certificate_info "not_after")]),
    ("file_integrity", jobj [
      ("file_size_bytes", optIntJson sig.signed_pdf_size),
      ("uuid_verified", .jBool true)]),
    ("signer_information", jobj [
      ("cpf_hash", .jStr sig.cpf_hash),
      ("full_name", .jStr sig.full_name),
      ("email", .jStr sig.email),
      ("city", .jStr sig.city),
      ("state", .jStr sig.state)]),
    ("metadata", jobj [
      ("verifier_version", .jStr "1.0"),
      ("system", .jStr "Petição Brasil"),
      ("processing_duration_seconds", processingDuration sig)])]

/-- Translation of custody_service.build_chain_of_custody -/
def build_chain_of_custody (sig : Signature) : Json :=
  jobj [
    ("version", .jStr "1.0"),
    ("events", jarr (
      (match sig.created_at with
       | some t => [jobj [("event", .jStr "submission"),
                          ("timestamp", .jStr (isoformat t)),
                          ("description", .jStr "Documento assinado recebido"),
                          ("ip_hash", .jStr sig.ip_address_hash),
                          ("user_agent", .jStr sig.user_agent)]]
       | none => []) ++
      (match sig.processing_started_at with
       | some t => [jobj [("event", .jStr "processing_started"),
                          ("timestamp", .jStr (isoformat t)),
                          ("description", .jStr "Verificação automática iniciada")]]
       | none => []) ++
      (match sig.processing_completed_at with
       | some t => [jobj [("event", .jStr "processing_completed"),
                          ("timestamp", .jStr (isoformat t)),
                          ("description", .jStr "Verificação automática concluída"),
                          ("status", .jStr sig.verification_status)]]
       | none => []) ++
      (match sig.verified_at with
       | some t => [jobj [("event", .jStr "approval"),
                          ("timestamp", .jStr (isoformat t)),
                          ("description", .jStr "Assinatura aprovada e contabilizada")]]
       | none => []) ++
      (match sig.certificate_generated_at with
       | some t => [jobj [("event", .jStr "certificate_generation"),
                          ("timestamp", .jStr (isoformat t)),
                          ("description", .jStr "Certificado de custódia gerado")]]
       | none => [])))]

/-- Translation of custody_service.generate_custody_certificate: build the
evidence, hash it, build the custody chain and store everything back on the
signature record.  The rendered PDF and its storage are abstracted into the
url argument (the locator the storage backend returns); the two separate
timezone.now() readings in the source (evidence timestamp and generation
timestamp) are the single now argument of one run. -/
def generate_custody_certificate (now : Int) (url : String) (sig : Signature) : Signature :=
  let evidence := build_verification_evidence now sig
  let verification_hash := calculate_verification_hash evidence
  let custody_chain := build_chain_of_custody sig
  { sig with
      verification_evidence := some evidence,
      verification_hash := some verification_hash,
      chain_of_custody := some custody_chain,
      certificate_generated_at := some now,
      custody_certificate_url := some url }

/-! helpers to inspect a built evidence document -/

def lookupObj : JsonObj → String → Option Json
  | .nil, _ => none
  | .cons k v rest, key => if k = key then some v else lookupObj rest key

def jsonListToList : JsonList → List Json
  | .nil => []
  | .cons x rest => x :: jsonListToList rest

def findStepStatus : List Json → String → Option Json
  | [], _ => none
  | .jObj kvs :: rest, name =>
      match lookupObj kvs "step" with
      | some (.jStr s) =>
          if s = name then lookupObj kvs "status" else findStepStatus rest name
      | _ => findStepStatus rest name
  | _ :: rest, name => findStepStatus rest name

/-- status of the named step inside the verification_steps array of an
evidence document -/
def evidenceStepStatus (e : Json) (name : String) : Option Json :=
  match e with
  | .jObj kvs =>
      match lookupObj kvs "verification_steps" with
      | some (.jArr steps) => findStepStatus (jsonListToList steps) name
      | _ => none
  | _ => none

/-! ## Section 6: certificates and the certificate classifier
(verification_service.py) -/

/-- OtherName entry of the Subject Alternative Name extension: the type OID in
dotted form and the UTF-8 decoded value (none models a decoding failure) -/
structure OtherName where
  typeId : String
  value : Option String

/-- parsed X.509 certificate as the verification service reads it; subject and
issuer carry their rfc4514 renderings, issuerCN the CN attribute of the issuer
when present, san the OtherName entries of the SAN extension (none when the
extension is absent), ocsp_url the AIA OCSP location and crl_urls the CRL
distribution point URLs -/
structure Cert where
  subject : String
  issuer : String
  issuerCN : Option String
  serial_number : Nat
  not_valid_before : Int
  not_valid_after : Int
  version : String
  common_name : Option String
  email : Option String
  san : Option (List OtherName)
  ocsp_url : Option String
  crl_urls : List String

def OID_CPF : String := "2.16.76.1.3.1"

def OID_CNPJ : String := "2.16.76.1.3.3"

def OID_RG : String := "2.16.76.1.3.2"

def OID_PIS_PASEP : String := "2.16.76.1.3.5"

def OID_CEI : String := "2.16.76.1.3.7"

/-- ASCII-only upper-casing (str.upper restricted to ASCII; the keyword scans
below only ever match ASCII keywords, which this mapping treats exactly as
CPython does) -/
def upChar (c : Char) : Char :=
  if 97 ≤ c.toNat ∧ c.toNat ≤ 122 then Char.ofNat (c.toNat - 32) else c

def pyUpper (s : String) : String := ⟨s.data.map upChar⟩

/-- ASCII-only lower-casing (str.lower restricted to ASCII) -/
def downChar (c : Char) : Char :=
  if 65 ≤ c.toNat ∧ c.toNat ≤ 90 then Char.ofNat (c.toNat + 32) else c

def pyLower (s : String) : String := ⟨s.data.map downChar⟩

/-- Python substring containment, pat in s -/
def strContains (s pat : String) : Bool := decide (pat.data <:+: s.data)

inductive CertType where
  | CPF : CertType
  | CNPJ : CertType
  | UNKNOWN : CertType
deriving DecidableEq

def certTypeStr : CertType → String
  | .CPF => "CPF"
  | .CNPJ => "CNPJ"
  | .UNKNOWN => "UNKNOWN"

/-- scan of the SAN OtherName entries: for each entry, in order, test the CNPJ
OID, then the CEI OID (treated as CNPJ), then the CPF OID -/
def scanSan : List OtherName → Option (CertType × Option String)
  | [] => none
  | n :: rest =>
      if n.typeId = OID_CNPJ then some (.CNPJ, n.value)
      else if n.typeId = OID_CEI then some (.CNPJ, n.value)
      else if n.typeId = OID_CPF then some (.CPF, n.value)
      else scanSan rest

def company_keywords : List String := ["EMPRESA", "LTDA", "S.A.", "S/A", "ME", "EPP", "EIRELI"]

/-- Translation of PDFSignatureVerifier._extract_certificate_type: first the
SAN OtherName OIDs, then the keyword fallback on the upper-cased subject and
issuer names, else UNKNOWN -/
def extract_certificate_type (cert : Cert) : CertType × Option String :=
  let sanResult := match cert.san with
    | some names => scanSan names
    | none => none
  match sanResult with
  | some r => r
  | none =>
      let subject_str := pyUpper cert.subject
      let issuer_str := pyUpper cert.issuer
      if strContains subject_str "CNPJ" || strContains issuer_str "CNPJ" then (.CNPJ, none)
      else if company_keywords.any (fun kw => strContains subject_str kw) then (.CNPJ, none)
      else (.UNKNOWN, none)

/-- Translation of PDFSignatureVerifier._extract_certificate_info -/
def extract_certificate_info (cert : Cert) : List (String × Json) :=
  let base : List (String × Json) :=
    [("subject", .jStr cert.subject),
     ("issuer", .jStr cert.issuer),
     ("serial_number", .jStr (toString cert.serial_number)),
     ("not_before", .jStr (isoformat cert.not_valid_before)),
     ("not_after", .jStr (isoformat cert.not_valid_after)),
     ("version", .jStr cert.version)]
  let tv := extract_certificate_type cert
  let base := base ++ [("certificate_type", .jStr (certTypeStr tv.1))]
  let base := base ++
    (match tv.1, tv.2 with
     | .CPF, some v => if v ≠ "" then [("cpf", Json.jStr v)] else []
     | .CNPJ, some v => if v ≠ "" then [("cnpj", Json.jStr v)] else []
     | _, _ => [])
  let base := base ++
    (match cert.common_name with
     | some cn => [("common_name", Json.jStr cn)]
     | none => [])
  base ++
    (match cert.email with
     | some em => [("email", Json.jStr em)]
     | none => [])

/-! ## Section 7: revocation checker (revocation_checker.py) -/

/-- per-serial entry of a cached CRL details dict -/
structure CrlEntry where
  revocation_date : Option String
  reason : Option String

/-- cached CRL metadata dict; absent keys are none -/
structure CrlMeta where
  this_update : Option String
  next_update : Option String
  issuer : Option String
  count : Option Nat

def emptyMeta : CrlMeta := ⟨none, none, none, none⟩

/-- shared Django cache as the revocation checker uses it: the three key
families crl:NAME:serials, crl:NAME:details and crl:NAME:meta (looked up by
full key string), plus the discovered_crl_endpoints dict (TTLs have no
observable effect inside one verification run and are not modelled) -/
structure CacheState where
  crlSerials : String → Option (List Nat)
  crlDetails : String → Option (List (Nat × CrlEntry))
  crlMeta : String → Option CrlMeta
  discovered : List (String × String)

inductive OcspCertStatus where
  | good : OcspCertStatus
  | revokedAt : String → Option String → OcspCertStatus
  | unknownStatus : OcspCertStatus

/-- parsed OCSP response: whether response_status is SUCCESSFUL, the
certificate status, and the update fields -/
structure OcspResponse where
  successful : Bool
  cert_status : OcspCertStatus
  this_update : Option String
  next_update : Option String

/-- downloaded and parsed CRL file: per-entry serial, revocation date and
optional reason extension, plus the CRL header fields -/
structure CrlFile where
  entries : List (Nat × String × Option String)
  last_update : String
  next_update : Option String
  issuer_name : String

/-- the network as an oracle: none models a request or parse failure -/
structure Network where
  ocsp : String → Option OcspResponse
  crl : String → Option CrlFile

/-- the result dict of a revocation check, with one field per key the checker
ever writes -/
structure RevDetails where
  method : Option String
  checked_at : String
  status : Option String
  reason : Option String
  revocation_date : Option String
  crl_issuer : Option String
  crl_this_update : Option String
  crl_next_update : Option String
  revoked_count : Option Nat
  this_update : Option String
  next_update : Option String
  crl_url : Option String

def baseDetails (now : Int) : RevDetails :=
  { method := none, checked_at := isoformat now, status := none, reason := none,
    revocation_date := none, crl_issuer := none, crl_this_update := none,
    crl_next_update := none, revoked_count := none, this_update := none,
    next_update := none, crl_url := none }

/-- Translation of _get_issuer_common_name: the CN attribute of the issuer, or
the full rfc4514 issuer name when no CN is present -/
def get_issuer_common_name (cert : Cert) : String := cert.issuerCN.getD cert.issuer

def ca_mapping : List (String × List String) :=
  [("serpro", ["AC-SERPROv5"]),
   ("serasa", ["AC-Serasa-JUS-v5"]),
   ("valid", ["AC-VALID-v5"]),
   ("certisign", ["AC-Certisign-G7"]),
   ("soluti", ["AC-SOLUTI-v5"]),
   ("sincor", ["AC-SINCOR-v5"]),
   ("raiz", ["AC-Raiz"])]

/-- Translation of _get_potential_ca_names: keyword table over the lower-cased
issuer CN, in dict insertion order, with AC-Raiz always appended as fallback -/
def get_potential_ca_names (issuer_cn : String) : List String :=
  let issuer_lower := pyLower issuer_cn
  let potential := ((ca_mapping.filter (fun p => strContains issuer_lower p.1)).map Prod.snd).flatten
  if potential.contains "AC-Raiz" then potential else potential ++ ["AC-Raiz"]

/-- one tier outcome: revoked flag plus the updates it applies to the result
dict (Python result.update on the returned details dict) -/
abbrev TierResult := Except String (Bool × (RevDetails → RevDetails))

/-- iteration of _check_cached_crl over the candidate CA names: the first name
with a cached serials entry (even an empty one) decides -/
def checkCachedLoop (cert : Cert) (cache : CacheState) : List String → TierResult
  | [] => .error ("No cached CRL found for certificate issuer: " ++ get_issuer_common_name cert)
  | ca :: rest =>
      match cache.crlSerials ("crl:" ++ ca ++ ":serials") with
      | some revoked_serials =>
          let meta := (cache.crlMeta ("crl:" ++ ca ++ ":meta")).getD emptyMeta
          if revoked_serials.contains cert.serial_number then
            let details := (cache.crlDetails ("crl:" ++ ca ++ ":details")).getD []
            let entry := (alookup details cert.serial_number).getD ⟨none, none⟩
            .ok (true, fun r =>
              { r with status := some "REVOKED",
                       revocation_date := entry.revocation_date,
                       reason := some (entry.reason.getD "unspecified"),
                       crl_issuer := meta.issuer,
                       crl_this_update := meta.this_update,
                       crl_next_update := meta.next_update })
          else
            .ok (false, fun r =>
              { r with status := some "GOOD",
                       crl_issuer := meta.issuer,
                       crl_this_update := meta.this_update,
                       crl_next_update := meta.next_update,
                       revoked_count := some (meta.count.getD 0) })
      | none => checkCachedLoop cert cache rest

/-- Translation of _check_cached_crl -/
def check_cached_crl (cert : Cert) (cache : CacheState) : TierResult :=
  checkCachedLoop cert cache (get_potential_ca_names (get_issuer_common_name cert))

/-- Translation of _check_ocsp -/
def check_ocsp (cert : Cert) (issuer_certificate : Option Cert) (net : Network) : TierResult :=
  match issuer_certificate with
  | none => .error "OCSP requires issuer certificate"
  | some _ =>
      match cert.ocsp_url with
      | none => .error "No OCSP URL found in certificate"
      | some url =>
          match net.ocsp url with
          | none => .error "OCSP request failed"
          | some resp =>
              if !resp.successful then .error "OCSP response status not successful"
              else
                match resp.cert_status with
                | .good => .ok (false, fun r =>
                    { r with status := some "good",
                             this_update := resp.this_update,
                             next_update := resp.next_update })
                | .revokedAt t reason => .ok (true, fun r =>
                    { r with status := some "revoked",
                             this_update := resp.this_update,
                             next_update := resp.next_update,
                             revocation_date := some t,
                             reason := some (reason.getD "unspecified") })
                | .unknownStatus => .error "Unknown OCSP certificate status"

/-- character class of _normalize_ca_name: everything outside ASCII letters,
digits and the hyphen becomes a hyphen -/
def normChar (c : Char) : Char :=
  if (48 ≤ c.toNat ∧ c.toNat ≤ 57) ∨ (65 ≤ c.toNat ∧ c.toNat ≤ 90) ∨
     (97 ≤ c.toNat ∧ c.toNat ≤ 122) ∨ c = '-' then c else '-'

def collapseHyphens : List Char → List Char
  | [] => []
  | ['-'] => ['-']
  | '-' :: '-' :: rest => collapseHyphens ('-' :: rest)
  | c :: rest => c :: collapseHyphens rest

/-- Translation of _normalize_ca_name: substitute every run of characters that
are not letters, digits or hyphens by one hyphen and strip hyphens at both
ends -/
def normalize_ca_name (s : String) : String :=
  let subst := (s.data.map normChar)
  let collapsed := collapseHyphens subst
  ⟨((collapsed.dropWhile (· = '-')).reverse.dropWhile (· = '-')).reverse⟩

def setCacheKey {β : Type} (f : String → Option β) (k : String) (v : β) : String → Option β :=
  fun x => if x = k then some v else f x

/-- Translation of _add_to_discovered_endpoints: record the first URL seen for
a CA name; later sightings of the same name are ignored -/
def add_to_discovered_endpoints (cache : CacheState) (ca_name crl_url : String) : CacheState :=
  if (alookup cache.discovered ca_name).isSome then cache
  else { cache with discovered := cache.discovered ++ [(ca_name, crl_url)] }

/-- cache writes performed after a successful on-demand CRL download -/
def cacheCrl (cache : CacheState) (ca_name : String) (crl : CrlFile) : CacheState :=
  let serials := crl.entries.map Prod.fst
  let details := crl.entries.map (fun e => (e.1, CrlEntry.mk (some e.2.1) (some (e.2.2.getD "unspecified"))))
  let meta : CrlMeta := ⟨some crl.last_update, crl.next_update, some crl.issuer_name, some serials.length⟩
  { cache with
      crlSerials := setCacheKey cache.crlSerials ("crl:" ++ ca_name ++ ":serials") serials,
      crlDetails := setCacheKey cache.crlDetails ("crl:" ++ ca_name ++ ":details") details,
      crlMeta := setCacheKey cache.crlMeta ("crl:" ++ ca_name ++ ":meta") meta }

/-- iteration of _download_and_check_crl over the distribution points: the
first URL that downloads and parses decides; on success the CRL is cached and
the endpoint recorded -/
def downloadCrlLoop (cert : Cert) (net : Network) (cache : CacheState) :
    List String → Except String ((Bool × (RevDetails → RevDetails)) × CacheState)
  | [] => .error "Failed to download CRL from any distribution point"
  | url :: rest =>
      match net.crl url with
      | none => downloadCrlLoop cert net cache rest
      | some crl =>
          let revoked_serials := crl.entries.map Prod.fst
          let ca_name := normalize_ca_name (get_issuer_common_name cert)
          let cache := cacheCrl cache ca_name crl
          let cache := add_to_discovered_endpoints cache ca_name url
          if revoked_serials.contains cert.serial_number then
            let entry := (alookup (crl.entries.map (fun e => (e.1, e.2))) cert.serial_number).getD ("", none)
            .ok ((true, fun r =>
              { r with status := some "REVOKED",
                       revocation_date := some entry.1,
                       reason := some (entry.2.getD "unspecified"),
                       crl_url := some url }), cache)
          else
            .ok ((false, fun r =>
              { r with status := some "GOOD",
                       crl_url := some url,
                       revoked_count := some revoked_serials.length }), cache)

/-- Translation of _download_and_check_crl -/
def download_and_check_crl (cert : Cert) (net : Network) (cache : CacheState) :
    Except String ((Bool × (RevDetails → RevDetails)) × CacheState) :=
  match cert.crl_urls with
  | [] => .error "No CRL distribution points found in certificate"
  | urls => downloadCrlLoop cert net cache urls

/-- outcome of is_revoked: the determination or the RevocationCheckError, the
cache as possibly extended by tier 3, and the warnings/errors logged -/
structure RevOutcome where
  res : Except String (Bool × RevDetails)
  cache : CacheState
  logs : List String

/-- Translation of CertificateRevocationChecker.is_revoked: cached CRL first,
then OCSP (only with an issuer certificate at hand), then on-demand CRL
download; if everything failed, strict mode raises RevocationCheckError and
permissive mode returns not-revoked with method FAILED, status UNKNOWN and a
logged warning -/
def is_revoked (strict : Bool) (now : Int) (cert : Cert) (issuer_certificate : Option Cert)
    (net : Network) (cache : CacheState) : RevOutcome :=
  let base := baseDetails now
  match check_cached_crl cert cache with
  | .ok (b, upd) => ⟨.ok (b, { upd base with method := some "CACHED_CRL" }), cache, []⟩
  | .error e1 =>
      let logs1 := ["Cached CRL check failed, trying OCSP: " ++ e1]
      let afterOcsp : Option RevOutcome :=
        match issuer_certificate with
        | none => none
        | some _ =>
            match check_ocsp cert issuer_certificate net with
            | .ok (b, upd) => some ⟨.ok (b, { upd base with method := some "OCSP" }), cache, logs1⟩
            | .error _ => none
      match afterOcsp with
      | some out => out
      | none =>
          let logs2 :=
            match issuer_certificate with
            | none => logs1
            | some _ =>
                match check_ocsp cert issuer_certificate net with
                | .error e2 => logs1 ++ ["OCSP check failed, trying dynamic CRL: " ++ e2]
                | .ok _ => logs1
          match download_and_check_crl cert net cache with
          | .ok ((b, upd), cache') =>
              ⟨.ok (b, { upd base with method := some "DYNAMIC_CRL" }), cache', logs2⟩
          | .error e3 =>
              let logs3 := logs2 ++ ["All revocation check methods failed: " ++ e3]
              if strict then
                ⟨.error "Unable to verify certificate revocation status. OCSP, cached CRL, and dynamic CRL checks all failed.",
                 cache, logs3⟩
              else
                ⟨.ok (false,
                  { base with method := some "FAILED", status := some "UNKNOWN",
                              reason := some "Unable to verify - defaulting to not revoked (permissive mode)" }),
                 cache,
                 logs3 ++ ["Certificate revocation check failed for serial " ++ toString cert.serial_number ++
                   ". Allowing signature due to SIGNATURE_VERIFICATION_STRICT=False. This is a security risk!"]⟩

/-! ## Section 8: chain validation and the verification pipeline
(verification_service.py) -/

/-- pipeline steps of one verification attempt, for stating ordering
properties; the trace a run emits lists the steps that actually executed -/
inductive Step where
  | classify : Step
  | revocationCheck : Step
  | chainWalk : Step
  | validityPeriod : Step
  | contentIntegrity : Step
deriving DecidableEq

def known_intermediates : List String :=
  ["AC Intermediaria do Governo Federal do Brasil",
   "AC Final do Governo Federal do Brasil",
   "Autoridade Certificadora do SERPRO",
   "Secretaria da Receita Federal do Brasil",
   "Gov-Br"]

/-- Translation of _find_issuer_certificate: the chain entry whose subject is
the issuer name, else a trusted root with that subject, else none -/
def find_issuer_certificate (cert : Cert) (chain : List Cert) (trusted : List Cert) : Option Cert :=
  match chain.find? (fun c => c.subject = cert.issuer) with
  | some c => some c
  | none => trusted.find? (fun t => t.subject = cert.issuer)

/-- the trust-matching loop at the end of _verify_certificate_chain: accept as
soon as some chain certificate is issued by a trusted root, is itself a
trusted root, or has an issuer name containing a known intermediate name -/
def chain_matches_trust (trusted : List Cert) (chain : List Cert) : Bool :=
  chain.any (fun cert =>
    trusted.any (fun t => cert.issuer = t.subject) ||
    trusted.any (fun t => cert.subject = t.subject) ||
    known_intermediates.any (fun n => strContains cert.issuer n))

/-- outcome of _verify_certificate_chain: the boolean verdict, the revocation
details stored on the verifier for the custody certificate, the cache as
possibly extended, the log messages, and the steps that executed -/
structure ChainOut where
  valid : Bool
  revocation_details : Option RevDetails
  cache : CacheState
  logs : List String
  trace : List Step

/-- Translation of _verify_certificate_chain: revocation status is checked
first; a revoked certificate fails immediately; a RevocationCheckError fails
in strict mode and falls through to the trust-matching loop in permissive
mode; otherwise the trust-matching loop decides -/
def verify_certificate_chain (strict : Bool) (now : Int) (trusted : List Cert) (net : Network)
    (cache : CacheState) (cert : Cert) (chain : List Cert) : ChainOut :=
  let issuer_cert := find_issuer_certificate cert chain trusted
  let out := is_revoked strict now cert issuer_cert net cache
  match out.res with
  | .ok (true, d) =>
      ⟨false, some d, out.cache,
       out.logs ++ ["REVOKED certificate detected! Serial: " ++ toString cert.serial_number],
       [.revocationCheck]⟩
  | .ok (false, d) =>
      ⟨chain_matches_trust trusted chain, some d, out.cache, out.logs,
       [.revocationCheck, .chainWalk]⟩
  | .error e =>
      if strict then
        ⟨false, none, out.cache,
         out.logs ++ ["Revocation check error: " ++ e,
                      "Rejecting signature due to failed revocation check (strict mode)"],
         [.revocationCheck]⟩
      else
        ⟨chain_matches_trust trusted chain, none, out.cache,
         out.logs ++ ["Revocation check error: " ++ e,
                      "Allowing signature despite revocation check failure (SIGNATURE_VERIFICATION_STRICT=False)"],
         [.revocationCheck, .chainWalk]⟩

/-- values a Python result dict holds in verify_pdf_signature -/
inductive PyVal where
  | vNone : PyVal
  | vBool : Bool → PyVal
  | vStr : String → PyVal
  | vDict : List (String × Json) → PyVal

/-- insertion-ordered dict update: replace in place or append -/
def dictSet (d : List (String × PyVal)) (k : String) (v : PyVal) : List (String × PyVal) :=
  if (alookup d k).isSome then d.map (fun kv => if kv.1 = k then (k, v) else kv)
  else d ++ [(k, v)]

def dictGet (d : List (String × PyVal)) (k : String) : Option PyVal := alookup d k

def pyTruthy : Option PyVal → Bool
  | some (.vBool b) => b
  | some (.vStr s) => s ≠ ""
  | some (.vDict d) => !d.isEmpty
  | some .vNone => false
  | none => false

def optStrPy : Option String → PyVal
  | none => .vNone
  | some s => .vStr s

/-- environment of one verify_pdf_signature run: the strict-mode flag, the
wall clock, the trusted roots, the network and cache oracles, and the outcome
of the _verify_pdf_content two-pass search of the petition UUID in the PDF
(abstracted as a boolean oracle; no claim under study depends on its
internals) -/
structure VerifyEnv where
  strict : Bool
  now : Int
  trusted : List Cert
  net : Network
  cache : CacheState
  content_ok : Bool

/-- outcome of one verify_pdf_signature run -/
structure VerifyOut where
  result : List (String × PyVal)
  trace : List Step
  cache : CacheState
  logs : List String

def initialResult : List (String × PyVal) :=
  [("verified", .vBool false), ("certificate_info", .vNone), ("error", .vNone)]

/-- Translation of verify_pdf_signature from the point where the signer
certificate and its chain have been extracted from the PKCS#7 (or legacy
/Cert) payload: certificate-type classification runs first and CNPJ/UNKNOWN
short-circuit; then the chain check (which itself checks revocation first),
the validity-period check and the content check -/
def verify_pdf_signature (env : VerifyEnv) (cert : Cert) (chain : List Cert) : VerifyOut :=
  match extract_certificate_type cert with
  | (.CNPJ, cert_value) =>
      let info : List (String × Json) :=
        [("certificate_type", .jStr "CNPJ"),
         ("cnpj", optStrJson cert_value),
         ("serial_number", .jStr (toString cert.serial_number)),
         ("issuer", .jStr cert.issuer)]
      let r := dictSet initialResult "verified" (.vBool false)
      let r := dictSet r "error" (.vStr ("Certificado CNPJ detectado. Esta plataforma aceita " ++
        "apenas certificados de pessoa física (CPF). " ++
        "Por favor, utilize certificado Gov.br, e-CPF ou A1/A3 de pessoa física."))
      let r := dictSet r "certificate_info" (.vDict info)
      let r := dictSet r "rejection_code" (.vStr "CNPJ_NOT_ACCEPTED")
      ⟨r, [.classify], env.cache,
       ["CNPJ certificate rejected: " ++ cert_value.getD "unknown"]⟩
  | (.UNKNOWN, _) =>
      let r := dictSet initialResult "verified" (.vBool false)
      let r := dictSet r "error" (.vStr "Tipo de certificado não identificado. Sua assinatura está em análise manual.")
      let r := dictSet r "requires_manual_review" (.vBool true)
      let r := dictSet r "certificate_info" (.vDict (extract_certificate_info cert))
      ⟨r, [.classify], env.cache,
       ["Unknown certificate type - requires manual review"]⟩
  | (.CPF, _) =>
      let chainOut := verify_certificate_chain env.strict env.now env.trusted env.net env.cache cert chain
      if !chainOut.valid then
        ⟨dictSet initialResult "error" (.vStr "Certificado não pertence à cadeia ICP-Brasil"),
         .classify :: chainOut.trace, chainOut.cache, chainOut.logs⟩
      else if env.now < cert.not_valid_before then
        ⟨dictSet initialResult "error" (.vStr "Certificado ainda não é válido"),
         .classify :: chainOut.trace ++ [.validityPeriod], chainOut.cache, chainOut.logs⟩
      else if env.now > cert.not_valid_after then
        ⟨dictSet initialResult "error" (.vStr "Certificado expirado"),
         .classify :: chainOut.trace ++ [.validityPeriod], chainOut.cache, chainOut.logs⟩
      else
        let cert_info := extract_certificate_info cert
        if !env.content_ok then
          ⟨dictSet initialResult "error" (.vStr "Conteúdo do PDF não corresponde à petição original"),
           .classify :: chainOut.trace ++ [.validityPeriod, .contentIntegrity],
           chainOut.cache, chainOut.logs⟩
        else
          let r := dictSet initialResult "verified" (.vBool true)
          let r := dictSet r "certificate_info" (.vDict cert_info)
          let r :=
            match chainOut.revocation_details with
            | some d =>
                dictSet (dictSet (dictSet r
                  "revocation_method" (optStrPy d.method))
                  "revocation_checked_at" (.vStr d.checked_at))
                  "revocation_status" (optStrPy d.status)
            | none => r
          ⟨r, .classify :: chainOut.trace ++ [.validityPeriod, .contentIntegrity],
           chainOut.cache, chainOut.logs⟩

/-! ## Section 9: the verification task (tasks.py) -/

/-- string value of a key of an extracted certificate-info dict, with the
empty string as default (cert_info.get(k, "")) -/
def ciGetStr (ci : List (String × Json)) (k : String) : String :=
  match alookup ci k with
  | some (.jStr s) => s
  | _ => ""

/-- rejection_reason := result.get("error", "Verificação falhou") -/
def errorOrDefault (result : List (String × PyVal)) : String :=
  match dictGet result "error" with
  | none => "Verificação falhou"
  | some (.vStr e) => e
  | some _ => ""

/-- Translation of the state updates of tasks.verify_signature after the
verifier returned: on verified=True store the certificate fields and the
cpf_verified flag read from the result dict, mark verified, approve (which
increments the petition counter) and generate the custody certificate; on
verified=False mark the signature rejected with the reason.  Notifications and
e-mails are external side effects outside this model, and a custody
generation failure is swallowed by the task (the success path is modelled). -/
def task_after_verification (result : List (String × PyVal))
    (sig : Signature) (pet : Petition)
    (now_completed now_approved now_generated : Int) (certificate_url : String) :
    Signature × Petition :=
  if pyTruthy (dictGet result "verified") then
    let sig :=
      match dictGet result "certificate_info" with
      | some (.vDict ci) =>
          if ci.isEmpty then sig
          else
            { sig with
                certificate_info := some ci,
                certificate_subject := some (ciGetStr ci "subject"),
                certificate_issuer := some (ciGetStr ci "issuer"),
                certificate_serial := some (ciGetStr ci "serial_number"),
                verified_cpf_from_certificate := pyTruthy (dictGet result "cpf_verified") }
      | _ => sig
    let sig := { sig with verified := true, processing_completed_at := some now_completed }
    let ap := Signature.approve now_approved sig pet
    (generate_custody_certificate now_generated certificate_url ap.1, ap.2)
  else
    ({ sig with
        verification_status := "rejected",
        rejection_reason := errorOrDefault result,
        processing_completed_at := some now_completed }, pet)

/-- Translation of tasks.verify_signature up to its terminal state update: the
signature first moves to processing with a start timestamp, the verifier runs,
and the terminal branch of the task applies -/
def verify_signature_task (env : VerifyEnv) (cert : Cert) (chain : List Cert)
    (sig : Signature) (pet : Petition)
    (now_started now_completed now_approved now_generated : Int) (certificate_url : String) :
    (Signature × Petition) × VerifyOut :=
  let sig := { sig with verification_status := "processing", processing_started_at := some now_started }
  let out := verify_pdf_signature env cert chain
  (task_after_verification out.result sig pet now_completed now_approved now_generated certificate_url, out)

/-! ## Section 10: fixtures used by witnesses and counterexamples -/

def noNet : Network := ⟨fun _ => none, fun _ => none⟩

def emptyCache : CacheState := ⟨fun _ => none, fun _ => none, fun _ => none, []⟩

/-- cache holding one revoked-serials set for AC-Raiz, the fallback CA name -/
def cacheRaiz (serials : List Nat) : CacheState :=
  ⟨fun k => if k = "crl:AC-Raiz:serials" then some serials else none,
   fun _ => none, fun _ => none, []⟩

def certCNPJfx : Cert :=
  { subject := "CN=ACME LTDA", issuer := "CN=AC SERPRO", issuerCN := some "AC SERPRO",
    serial_number := 77, not_valid_before := -10, not_valid_after := 10, version := "v3",
    common_name := some "ACME", email := none,
    san := some [⟨OID_CNPJ, some "12345678000190"⟩], ocsp_url := none, crl_urls := [] }

def certUnknownFx : Cert :=
  { subject := "CN=JOAO", issuer := "CN=AC XYZQ", issuerCN := some "AC XYZQ",
    serial_number := 78, not_valid_before := -10, not_valid_after := 10, version := "v3",
    common_name := some "JOAO", email := none,
    san := none, ocsp_url := none, crl_urls := [] }

def certCPFfx : Cert :=
  { subject := "CN=JOAO", issuer := "CN=AC RAIZQ", issuerCN := some "AC RAIZQ",
    serial_number := 79, not_valid_before := -10, not_valid_after := 10, version := "v3",
    common_name := some "JOAO", email := none,
    san := some [⟨OID_CPF, some "12345678901"⟩], ocsp_url := none, crl_urls := [] }

def rootFx : Cert := { certCPFfx with subject := "CN=AC RAIZQ" }

def sigFx : Signature :=
  { uuid := "a", petition_uuid := "b", full_name := "d", email := "e", city := "f",
    state := "g", cpf_hash := "c", ip_address_hash := "", user_agent := "",
    signed_pdf_size := none, verification_status := "pending", rejection_reason := "",
    verified := false, verified_cpf_from_certificate := false, certificate_info := none,
    certificate_subject := none, certificate_issuer := none, certificate_serial := none,
    created_at := none, processing_started_at := none, processing_completed_at := none,
    verified_at := none, certificate_generated_at := none, verification_evidence := none,
    verification_hash := none, chain_of_custody := none, custody_certificate_url := none }

def petFx : Petition := { uuid := "b", signature_count := 0, signature_goal := 100 }

/-! ## Section 11: the claims -/

/-- C8: Signature.approve increments the referenced petition counter at most
once per signature instance: approving an already-approved signature changes
neither the signature nor the counter, a second approval after a first one is
a no-op, and a signature that was not yet approved raises the counter by
exactly one across both attempts. -/
theorem approve_increments_at_most_once (now1 now2 : Int) (sig : Signature) (pet : Petition) :
    (sig.verification_status = "approved" → Signature.approve now1 sig pet = (sig, pet)) ∧
    Signature.approve now2 (Signature.approve now1 sig pet).1 (Signature.approve now1 sig pet).2 =
      Signature.approve now1 sig pet ∧
    (sig.verification_status ≠ "approved" →
      (Signature.approve now2 (Signature.approve now1 sig pet).1
        (Signature.approve now1 sig pet).2).2.signature_count = pet.signature_count + 1) := by
  refine ⟨fun h => by simp [Signature.approve, h], ?_, fun h => ?_⟩
  · by_cases h : sig.verification_status = "approved"
    · simp [Signature.approve, h]
    · simp [Signature.approve, h, Petition.increment_signature_count]
  · simp [Signature.approve, h, Petition.increment_signature_count]

theorem approve_increments_at_most_once_witness :
    Signature.approve 1 { sigFx with verification_status := "approved" } petFx =
      ({ sigFx with verification_status := "approved" }, petFx) ∧
    (Signature.approve 2 (Signature.approve 1 sigFx petFx).1
      (Signature.approve 1 sigFx petFx).2).2.signature_count = petFx.signature_count + 1 :=
  ⟨(approve_increments_at_most_once 1 2 { sigFx with verification_status := "approved" } petFx).1 rfl,
   (approve_increments_at_most_once 1 2 sigFx petFx).2.2 (by decide)⟩

/-- C2: calculate_verification_hash is the SHA-256 hex digest of the canonical
sorted-key JSON serialization of the evidence, always 64 characters long and
made of hex digits, stable across repeated computation, and invariant under
key-reordering of the evidence document (same key-value content, no duplicate
keys). -/
theorem verification_hash_canonical (e : Json) (kvs₁ kvs₂ : List (String × Json)) :
    calculate_verification_hash e = sha256Hex (json_dumps e) ∧
    (calculate_verification_hash e).length = 64 ∧
    (∀ c ∈ (calculate_verification_hash e).data, c ∈ hexAlphabet) ∧
    calculate_verification_hash e = calculate_verification_hash e ∧
    (kvs₁.Perm kvs₂ → (kvs₁.map Prod.fst).Nodup →
      calculate_verification_hash (jobj kvs₁) = calculate_verification_hash (jobj kvs₂)) := by
  refine ⟨rfl, sha256Hex_length (json_dumps e), ?_, rfl, fun hp hnd => ?_⟩
  · intro c hc
    exact sha256Hex_mem_hex (json_dumps e) c hc
  · show sha256Hex (json_dumps (jobj kvs₁)) = sha256Hex (json_dumps (jobj kvs₂))
    rw [json_dumps_jobj_perm kvs₁ kvs₂ hp hnd]

theorem verification_hash_canonical_witness :
    calculate_verification_hash (jobj [("b", .jInt 1), ("a", .jStr "x")]) =
      calculate_verification_hash (jobj [("a", .jStr "x"), ("b", .jInt 1)]) :=
  (verification_hash_canonical (jobj [])
    [("b", .jInt 1), ("a", .jStr "x")] [("a", .jStr "x"), ("b", .jInt 1)]).2.2.2.2
    (List.Perm.swap ("a", Json.jStr "x") ("b", Json.jInt 1) [])
    (by decide)

/-- projection of a revocation outcome to its revoked flag, none when the
check raised RevocationCheckError -/
def revokedFlag : Except String (Bool × RevDetails) → Option Bool
  | .ok (b, _) => some b
  | .error _ => none

/-- C9: the trust-matching loop accepts a chain exactly when some chain entry
is issued by a trusted root, is itself a trusted root, or names a known
government intermediate inside its issuer, for chains of any length including
one; and whenever the revocation step reports not revoked, the full chain
check returns exactly that loop verdict (ChainInvalid exactly when no entry
matches). -/
theorem chain_validator_acceptance (trusted chain : List Cert) :
    (chain_matches_trust trusted chain = true ↔
      ∃ c ∈ chain,
        (∃ t ∈ trusted, c.issuer = t.subject) ∨
        (∃ t ∈ trusted, c.subject = t.subject) ∨
        (∃ n ∈ known_intermediates, n.data <:+: c.issuer.data)) ∧
    (∀ (strict : Bool) (now : Int) (net : Network) (cache : CacheState) (cert : Cert),
      revokedFlag (is_revoked strict now cert (find_issuer_certificate cert chain trusted)
        net cache).res = some false →
      (verify_certificate_chain strict now trusted net cache cert chain).valid =
        chain_matches_trust trusted chain) := by
  constructor
  · unfold chain_matches_trust
    rw [List.any_eq_true]
    constructor
    · rintro ⟨c, hc, hp⟩
      simp only [Bool.or_eq_true, List.any_eq_true, strContains, decide_eq_true_eq] at hp
      exact ⟨c, hc, or_assoc.mp hp⟩
    · rintro ⟨c, hc, hp⟩
      refine ⟨c, hc, ?_⟩
      simp only [Bool.or_eq_true, List.any_eq_true, strContains, decide_eq_true_eq]
      exact or_assoc.mpr hp
  · intro strict now net cache cert hflag
    unfold verify_certificate_chain
    rcases hres : (is_revoked strict now cert (find_issuer_certificate cert chain trusted)
        net cache).res with e | ⟨b, d⟩
    · rw [hres] at hflag
      simp [revokedFlag] at hflag
    · rw [hres] at hflag
      simp only [revokedFlag, Option.some.injEq] at hflag
      subst hflag
      simp [hres]

theorem chain_validator_acceptance_witness :
    (chain_matches_trust [rootFx] [certCPFfx] = true ↔
      ∃ c ∈ [certCPFfx],
        (∃ t ∈ [rootFx], c.issuer = t.subject) ∨
        (∃ t ∈ [rootFx], c.subject = t.subject) ∨
        (∃ n ∈ known_intermediates, n.data <:+: c.issuer.data)) ∧
    (verify_certificate_chain true 0 [rootFx] noNet (cacheRaiz []) certCPFfx [certCPFfx]).valid =
      chain_matches_trust [rootFx] [certCPFfx] :=
  ⟨(chain_validator_acceptance [rootFx] [certCPFfx]).1,
   (chain_validator_acceptance [rootFx] [certCPFfx]).2 true 0 noNet (cacheRaiz []) certCPFfx rfl⟩

/-- C3: a certificate classified CNPJ (legal entity, including the CEI
company OID and the keyword heuristic) makes verify_pdf_signature return an
unverified verdict with rejection code CNPJ_NOT_ACCEPTED immediately after
classification: the trace records no revocation check and no trust-chain
walk, and the outcome does not depend on the revocation or chain oracles at
all (the environment is universally quantified and the cache is returned
untouched). -/
theorem cnpj_rejected_before_chain_checks (env : VerifyEnv) (cert : Cert) (chain : List Cert)
    (v : Option String) (h : extract_certificate_type cert = (CertType.CNPJ, v)) :
    dictGet (verify_pdf_signature env cert chain).result "verified" = some (.vBool false) ∧
    dictGet (verify_pdf_signature env cert chain).result "rejection_code" =
      some (.vStr "CNPJ_NOT_ACCEPTED") ∧
    (verify_pdf_signature env cert chain).trace = [Step.classify] ∧
    Step.revocationCheck ∉ (verify_pdf_signature env cert chain).trace ∧
    Step.chainWalk ∉ (verify_pdf_signature env cert chain).trace ∧
    (verify_pdf_signature env cert chain).cache = env.cache := by
  simp only [verify_pdf_signature, h]
  exact ⟨by trivial, by trivial, by trivial, by decide, by decide, by trivial⟩

theorem cnpj_rejected_before_chain_checks_witness :
    dictGet (verify_pdf_signature ⟨true, 0, [], noNet, emptyCache, true⟩ certCNPJfx []).result
      "verified" = some (.vBool false) ∧
    dictGet (verify_pdf_signature ⟨true, 0, [], noNet, emptyCache, true⟩ certCNPJfx []).result
      "rejection_code" = some (.vStr "CNPJ_NOT_ACCEPTED") :=
  ⟨(cnpj_rejected_before_chain_checks ⟨true, 0, [], noNet, emptyCache, true⟩ certCNPJfx []
      (some "12345678000190") rfl).1,
   (cnpj_rejected_before_chain_checks ⟨true, 0, [], noNet, emptyCache, true⟩ certCNPJfx []
      (some "12345678000190") rfl).2.1⟩

/-- first CA name of the candidate list that has a cached revoked-serials
entry, together with that entry -/
def firstCachedEntry (cache : CacheState) : List String → Option (String × List Nat)
  | [] => none
  | ca :: rest =>
      match cache.crlSerials ("crl:" ++ ca ++ ":serials") with
      | some s => some (ca, s)
      | none => firstCachedEntry cache rest

theorem checkCachedLoop_of_firstCached (cert : Cert) (cache : CacheState) :
    ∀ (names : List String) (ca : String) (serials : List Nat),
    firstCachedEntry cache names = some (ca, serials) →
    ∃ upd, checkCachedLoop cert cache names =
      .ok (serials.contains cert.serial_number, upd) := by
  intro names
  induction names with
  | nil => intro ca serials h; simp [firstCachedEntry] at h
  | cons hd rest ih =>
      intro ca serials h
      rcases hlk : cache.crlSerials ("crl:" ++ hd ++ ":serials") with _ | s
      · rw [firstCachedEntry, hlk] at h
        obtain ⟨upd, hupd⟩ := ih ca serials h
        exact ⟨upd, by rw [checkCachedLoop, hlk]; exact hupd⟩
      · rw [firstCachedEntry, hlk] at h
        simp only [Option.some.injEq, Prod.mk.injEq] at h
        obtain ⟨hca, hs⟩ := h
        subst hs
        by_cases hmem : s.contains cert.serial_number = true
        · simp only [checkCachedLoop, hlk, hmem, if_true]
          exact ⟨_, rfl⟩
        · have hmem2 : s.contains cert.serial_number = false := by
            rwa [Bool.not_eq_true] at hmem
          simp only [checkCachedLoop, hlk, hmem2, Bool.false_eq_true, if_false]
          exact ⟨_, rfl⟩

theorem checkCachedLoop_all_missing (cert : Cert) (cache : CacheState) :
    ∀ (names : List String),
    (∀ ca ∈ names, cache.crlSerials ("crl:" ++ ca ++ ":serials") = none) →
    checkCachedLoop cert cache names =
      .error ("No cached CRL found for certificate issuer: " ++ get_issuer_common_name cert) := by
  intro names
  induction names with
  | nil => intro _; rfl
  | cons hd rest ih =>
      intro h
      rw [checkCachedLoop, h hd (by simp)]
      exact ih (fun ca hca => h ca (by simp [hca]))

theorem downloadCrlLoop_all_failing (cert : Cert) (net : Network) (cache : CacheState) :
    ∀ (urls : List String),
    (∀ u ∈ urls, net.crl u = none) →
    downloadCrlLoop cert net cache urls =
      .error "Failed to download CRL from any distribution point" := by
  intro urls
  induction urls with
  | nil => intro _; rfl
  | cons hd rest ih =>
      intro h
      rw [downloadCrlLoop, h hd (by simp)]
      exact ih (fun u hu => h u (by simp [hu]))

theorem download_and_check_all_failing (cert : Cert) (net : Network) (cache : CacheState)
    (h : ∀ u ∈ cert.crl_urls, net.crl u = none) :
    ∃ e, download_and_check_crl cert net cache = .error e := by
  unfold download_and_check_crl
  rcases hurls : cert.crl_urls with _ | ⟨u, us⟩
  · exact ⟨_, rfl⟩
  · refine ⟨_, downloadCrlLoop_all_failing cert net cache (u :: us) ?_⟩
    intro x hx
    exact h x (by rw [hurls]; exact hx)

/-- C5: when some candidate CA name for the certificate issuer has a cached
revoked-serials entry (even an empty one), is_revoked decides through the
cached-list tier: method CACHED_CRL, revoked exactly when the serial number is
in the first such cached set, the cache untouched and no fallthrough logged. -/
theorem cached_crl_tier_decides (strict : Bool) (now : Int) (cert : Cert)
    (issuer_certificate : Option Cert) (net : Network) (cache : CacheState)
    (ca : String) (serials : List Nat)
    (h : firstCachedEntry cache (get_potential_ca_names (get_issuer_common_name cert)) =
      some (ca, serials)) :
    ∃ d, (is_revoked strict now cert issuer_certificate net cache).res =
        .ok (serials.contains cert.serial_number, d) ∧
      d.method = some "CACHED_CRL" ∧
      (is_revoked strict now cert issuer_certificate net cache).cache = cache ∧
      (is_revoked strict now cert issuer_certificate net cache).logs = [] := by
  obtain ⟨upd, hloop⟩ :=
    checkCachedLoop_of_firstCached cert cache
      (get_potential_ca_names (get_issuer_common_name cert)) ca serials h
  have hc : check_cached_crl cert cache =
      Except.ok (serials.contains cert.serial_number, upd) := by
    unfold check_cached_crl
    exact hloop
  refine ⟨{ upd (baseDetails now) with method := some "CACHED_CRL" }, ?_, rfl, ?_, ?_⟩
  · simp only [is_revoked, hc]
  · simp only [is_revoked, hc]
  · simp only [is_revoked, hc]

theorem cached_crl_tier_decides_witness :
    (∃ d, (is_revoked true 0 certCPFfx none noNet (cacheRaiz [79])).res =
        .ok (([79] : List Nat).contains certCPFfx.serial_number, d) ∧
      d.method = some "CACHED_CRL" ∧
      (is_revoked true 0 certCPFfx none noNet (cacheRaiz [79])).cache = cacheRaiz [79] ∧
      (is_revoked true 0 certCPFfx none noNet (cacheRaiz [79])).logs = []) ∧
    (∃ d, (is_revoked true 0 certCPFfx none noNet (cacheRaiz [])).res =
        .ok (([] : List Nat).contains certCPFfx.serial_number, d) ∧
      d.method = some "CACHED_CRL" ∧
      (is_revoked true 0 certCPFfx none noNet (cacheRaiz [])).cache = cacheRaiz [] ∧
      (is_revoked true 0 certCPFfx none noNet (cacheRaiz [])).logs = []) :=
  ⟨cached_crl_tier_decides true 0 certCPFfx none noNet (cacheRaiz [79]) "AC-Raiz" [79] rfl,
   cached_crl_tier_decides true 0 certCPFfx none noNet (cacheRaiz []) "AC-Raiz" [] rfl⟩

/-- C6: with no cached entry for any candidate CA name, no issuer certificate
available, and every CRL distribution point unreachable, the revocation check
fails closed in strict mode (RevocationCheckError, and the whole signature
verification is rejected as chain-invalid), while in permissive mode it
returns revoked=false with the Indeterminate method (the FAILED marker) and
status UNKNOWN, logs the security-risk warning, and verification continues
into the trust-chain walk. -/
theorem revocation_all_tiers_fail (now : Int) (cert : Cert) (net : Network) (cache : CacheState)
    (trusted chain : List Cert) (content_ok : Bool) (v : Option String)
    (hcache : ∀ ca ∈ get_potential_ca_names (get_issuer_common_name cert),
      cache.crlSerials ("crl:" ++ ca ++ ":serials") = none)
    (hnet : ∀ url ∈ cert.crl_urls, net.crl url = none)
    (hissuer : find_issuer_certificate cert chain trusted = none)
    (hcpf : extract_certificate_type cert = (CertType.CPF, v)) :
    ((is_revoked true now cert none net cache).res =
      .error "Unable to verify certificate revocation status. OCSP, cached CRL, and dynamic CRL checks all failed.") ∧
    dictGet (verify_pdf_signature ⟨true, now, trusted, net, cache, content_ok⟩ cert chain).result
      "verified" = some (.vBool false) ∧
    dictGet (verify_pdf_signature ⟨true, now, trusted, net, cache, content_ok⟩ cert chain).result
      "error" = some (.vStr "Certificado não pertence à cadeia ICP-Brasil") ∧
    (∃ d, (is_revoked false now cert none net cache).res = .ok (false, d) ∧
      d.method = some "FAILED" ∧ d.status = some "UNKNOWN") ∧
    ("Certificate revocation check failed for serial " ++ toString cert.serial_number ++
      ". Allowing signature due to SIGNATURE_VERIFICATION_STRICT=False. This is a security risk!")
      ∈ (is_revoked false now cert none net cache).logs ∧
    Step.chainWalk ∈ (verify_pdf_signature ⟨false, now, trusted, net, cache, content_ok⟩ cert chain).trace := by
  have hcc : check_cached_crl cert cache =
      .error ("No cached CRL found for certificate issuer: " ++ get_issuer_common_name cert) := by
    unfold check_cached_crl
    exact checkCachedLoop_all_missing cert cache _ hcache
  obtain ⟨e3, hdl⟩ := download_and_check_all_failing cert net cache hnet
  have hstrict : (is_revoked true now cert none net cache).res =
      .error "Unable to verify certificate revocation status. OCSP, cached CRL, and dynamic CRL checks all failed." := by
    simp only [is_revoked, hcc, hdl]
    rfl
  have hpermres : (is_revoked false now cert none net cache).res =
      .ok (false,
           { baseDetails now with
               method := some "FAILED",
               status := some "UNKNOWN",
               reason := some "Unable to verify - defaulting to not revoked (permissive mode)" }) := by
    simp only [is_revoked, hcc, hdl]
    rfl
  have hpermlogs : (is_revoked false now cert none net cache).logs =
      ["Cached CRL check failed, trying OCSP: " ++
         ("No cached CRL found for certificate issuer: " ++ get_issuer_common_name cert),
       "All revocation check methods failed: " ++ e3,
       "Certificate revocation check failed for serial " ++ toString cert.serial_number ++
         ". Allowing signature due to SIGNATURE_VERIFICATION_STRICT=False. This is a security risk!"] := by
    simp only [is_revoked, hcc, hdl]
    rfl
  have hchainS : (verify_certificate_chain true now trusted net cache cert chain).valid = false := by
    simp only [verify_certificate_chain, hissuer, hstrict]
    rfl
  have htrP : (verify_certificate_chain false now trusted net cache cert chain).trace =
      [Step.revocationCheck, Step.chainWalk] := by
    simp only [verify_certificate_chain, hissuer, hpermres]
  refine ⟨hstrict, ?_, ?_, ⟨_, hpermres, rfl, rfl⟩, ?_, ?_⟩
  · simp only [verify_pdf_signature, hcpf, hchainS]
    rfl
  · simp only [verify_pdf_signature, hcpf, hchainS]
    rfl
  · rw [hpermlogs]
    simp
  · simp only [verify_pdf_signature, hcpf, htrP]
    split_ifs <;> simp

theorem revocation_all_tiers_fail_witness :
    (is_revoked true 0 certCPFfx none noNet emptyCache).res =
      .error "Unable to verify certificate revocation status. OCSP, cached CRL, and dynamic CRL checks all failed." ∧
    (∃ d, (is_revoked false 0 certCPFfx none noNet emptyCache).res = .ok (false, d) ∧
      d.method = some "FAILED" ∧ d.status = some "UNKNOWN") ∧
    Step.chainWalk ∈ (verify_pdf_signature ⟨false, 0, [], noNet, emptyCache, true⟩ certCPFfx []).trace :=
  ⟨(revocation_all_tiers_fail 0 certCPFfx noNet emptyCache [] [] true (some "12345678901")
      (fun _ _ => rfl) (fun _ _ => rfl) rfl rfl).1,
   (revocation_all_tiers_fail 0 certCPFfx noNet emptyCache [] [] true (some "12345678901")
      (fun _ _ => rfl) (fun _ _ => rfl) rfl rfl).2.2.2.1,
   (revocation_all_tiers_fail 0 certCPFfx noNet emptyCache [] [] true (some "12345678901")
      (fun _ _ => rfl) (fun _ _ => rfl) rfl rfl).2.2.2.2.2⟩

theorem chain_trace_cases (strict : Bool) (now : Int) (trusted : List Cert) (net : Network)
    (cache : CacheState) (cert : Cert) (chain : List Cert) :
    (verify_certificate_chain strict now trusted net cache cert chain).trace = [Step.revocationCheck] ∨
    (verify_certificate_chain strict now trusted net cache cert chain).trace =
      [Step.revocationCheck, Step.chainWalk] := by
  rcases hres : (is_revoked strict now cert (find_issuer_certificate cert chain trusted)
      net cache).res with e | ⟨b, d⟩
  · cases strict
    · right
      simp only [verify_certificate_chain, hres]
      rfl
    · left
      simp only [verify_certificate_chain, hres]
      rfl
  · cases b
    · right
      simp only [verify_certificate_chain, hres]
    · left
      simp only [verify_certificate_chain, hres]

/-- C7: the pipeline steps of one verification run always appear in the fixed
order classify, revocation check, trust-chain walk, validity-period check,
content-integrity check (the emitted trace is a sublist of that order, so in
particular revocation is checked before the trust-chain walk); and a
certificate whose revocation check says revoked is rejected on that outcome
alone: the trust-chain walk never executes, whatever the chain contents. -/
theorem pipeline_executes_in_fixed_order (env : VerifyEnv) (cert : Cert) (chain : List Cert) :
    (verify_pdf_signature env cert chain).trace.Sublist
      [Step.classify, Step.revocationCheck, Step.chainWalk, Step.validityPeriod,
       Step.contentIntegrity] ∧
    (∀ v, extract_certificate_type cert = (CertType.CPF, v) →
      revokedFlag (is_revoked env.strict env.now cert
        (find_issuer_certificate cert chain env.trusted) env.net env.cache).res = some true →
      Step.revocationCheck ∈ (verify_pdf_signature env cert chain).trace ∧
      Step.chainWalk ∉ (verify_pdf_signature env cert chain).trace ∧
      dictGet (verify_pdf_signature env cert chain).result "verified" = some (.vBool false) ∧
      dictGet (verify_pdf_signature env cert chain).result "error" =
        some (.vStr "Certificado não pertence à cadeia ICP-Brasil")) := by
  have s1 : [Step.classify].Sublist
      [Step.classify, Step.revocationCheck, Step.chainWalk, Step.validityPeriod,
       Step.contentIntegrity] := by decide
  have s2 : [Step.classify, Step.revocationCheck].Sublist
      [Step.classify, Step.revocationCheck, Step.chainWalk, Step.validityPeriod,
       Step.contentIntegrity] := by decide
  have s3 : [Step.classify, Step.revocationCheck, Step.validityPeriod].Sublist
      [Step.classify, Step.revocationCheck, Step.chainWalk, Step.validityPeriod,
       Step.contentIntegrity] := by decide
  have s4 : [Step.classify, Step.revocationCheck, Step.validityPeriod,
      Step.contentIntegrity].Sublist
      [Step.classify, Step.revocationCheck, Step.chainWalk, Step.validityPeriod,
       Step.contentIntegrity] := by decide
  have s5 : [Step.classify, Step.revocationCheck, Step.chainWalk].Sublist
      [Step.classify, Step.revocationCheck, Step.chainWalk, Step.validityPeriod,
       Step.contentIntegrity] := by decide
  have s6 : [Step.classify, Step.revocationCheck, Step.chainWalk, Step.validityPeriod].Sublist
      [Step.classify, Step.revocationCheck, Step.chainWalk, Step.validityPeriod,
       Step.contentIntegrity] := by decide
  have s7 : [Step.classify, Step.revocationCheck, Step.chainWalk, Step.validityPeriod,
      Step.contentIntegrity].Sublist
      [Step.classify, Step.revocationCheck, Step.chainWalk, Step.validityPeriod,
       Step.contentIntegrity] := by decide
  constructor
  · rcases hET : extract_certificate_type cert with ⟨ct, cv⟩
    cases ct with
    | CNPJ =>
        simp only [verify_pdf_signature, hET]
        exact s1
    | UNKNOWN =>
        simp only [verify_pdf_signature, hET]
        exact s1
    | CPF =>
        rcases chain_trace_cases env.strict env.now env.trusted env.net env.cache cert chain
          with hT | hT <;>
          simp only [verify_pdf_signature, hET, hT] <;>
          split_ifs <;>
          first
            | exact s1 | exact s2 | exact s3 | exact s4 | exact s5 | exact s6 | exact s7
  · intro v hET hrev
    rcases hres : (is_revoked env.strict env.now cert
        (find_issuer_certificate cert chain env.trusted) env.net env.cache).res with e | ⟨b, d⟩
    · rw [hres] at hrev
      simp [revokedFlag] at hrev
    · rw [hres] at hrev
      simp only [revokedFlag, Option.some.injEq] at hrev
      subst hrev
      have hvalid : (verify_certificate_chain env.strict env.now env.trusted env.net env.cache
          cert chain).valid = false := by
        simp only [verify_certificate_chain, hres]
      have htr : (verify_certificate_chain env.strict env.now env.trusted env.net env.cache
          cert chain).trace = [Step.revocationCheck] := by
        simp only [verify_certificate_chain, hres]
      simp only [verify_pdf_signature, hET, hvalid, htr]
      refine ⟨?_, ?_, by trivial, by trivial⟩
      · show Step.revocationCheck ∈ [Step.classify, Step.revocationCheck]
        decide
      · show Step.chainWalk ∉ [Step.classify, Step.revocationCheck]
        decide

theorem pipeline_executes_in_fixed_order_witness :
    (verify_pdf_signature ⟨true, 0, [rootFx], noNet, cacheRaiz [79], true⟩ certCPFfx
      [certCPFfx]).trace.Sublist
      [Step.classify, Step.revocationCheck, Step.chainWalk, Step.validityPeriod,
       Step.contentIntegrity] ∧
    Step.chainWalk ∉ (verify_pdf_signature ⟨true, 0, [rootFx], noNet, cacheRaiz [79], true⟩
      certCPFfx [certCPFfx]).trace :=
  ⟨(pipeline_executes_in_fixed_order ⟨true, 0, [rootFx], noNet, cacheRaiz [79], true⟩
      certCPFfx [certCPFfx]).1,
   ((pipeline_executes_in_fixed_order ⟨true, 0, [rootFx], noNet, cacheRaiz [79], true⟩
      certCPFfx [certCPFfx]).2 (some "12345678901") rfl rfl).2.1⟩

/-- C4, divergence witness: a certificate with no SAN identifier OIDs and no
legal-entity keywords classifies UNKNOWN; the verifier returns an unverified
result explicitly flagged requires_manual_review with a message promising
manual analysis, yet the task records the terminal state rejected, not
manual_review (the task branches only on verified and never reads the flag). -/
theorem unknown_cert_flagged_manual_but_task_rejects :
    dictGet (verify_pdf_signature ⟨true, 0, [], noNet, emptyCache, true⟩
      certUnknownFx []).result "requires_manual_review" = some (.vBool true) ∧
    dictGet (verify_pdf_signature ⟨true, 0, [], noNet, emptyCache, true⟩
      certUnknownFx []).result "error" =
      some (.vStr "Tipo de certificado não identificado. Sua assinatura está em análise manual.") ∧
    pyTruthy (dictGet (verify_pdf_signature ⟨true, 0, [], noNet, emptyCache, true⟩
      certUnknownFx []).result "verified") = false ∧
    (verify_signature_task ⟨true, 0, [], noNet, emptyCache, true⟩ certUnknownFx [] sigFx petFx
      0 1 2 3 "u").1.1.verification_status = "rejected" ∧
    (verify_signature_task ⟨true, 0, [], noNet, emptyCache, true⟩ certUnknownFx [] sigFx petFx
      0 1 2 3 "u").1.1.verification_status ≠ "manual_review" := by
  have h4 : (verify_signature_task ⟨true, 0, [], noNet, emptyCache, true⟩ certUnknownFx [] sigFx
      petFx 0 1 2 3 "u").1.1.verification_status = "rejected" := rfl
  exact ⟨rfl, rfl, rfl, h4, by rw [h4]; decide⟩

theorem alookup_map_replace {β : Type} (d : List (String × β)) (k k2 : String) (v : β)
    (h : k2 ≠ k) :
    alookup (d.map (fun kv => if kv.1 = k then (k, v) else kv)) k2 = alookup d k2 := by
  induction d with
  | nil => rfl
  | cons kv rest ih =>
      simp only [List.map_cons]
      by_cases hkv : kv.1 = k
      · have hne : ¬ (k = k2) := fun hh => h hh.symm
        have hne2 : ¬ (kv.1 = k2) := by rw [hkv]; exact hne
        rw [if_pos hkv]
        simp [alookup, hne, hne2, ih]
      · rw [if_neg hkv]
        by_cases hk2 : kv.1 = k2 <;> simp [alookup, hk2, ih]

theorem alookup_append_single {β : Type} (d : List (String × β)) (k k2 : String) (v : β)
    (h : k2 ≠ k) :
    alookup (d ++ [(k, v)]) k2 = alookup d k2 := by
  induction d with
  | nil =>
      have hne : ¬ (k = k2) := fun hh => h hh.symm
      simp [alookup, hne]
  | cons kv rest ih =>
      by_cases hk2 : kv.1 = k2 <;> simp [alookup, hk2, ih]

theorem dictGet_dictSet_ne (d : List (String × PyVal)) (k k2 : String) (v : PyVal)
    (h : k2 ≠ k) : dictGet (dictSet d k v) k2 = dictGet d k2 := by
  unfold dictGet dictSet
  by_cases hs : (alookup d k).isSome <;>
    simp [hs, alookup_map_replace _ _ _ _ h, alookup_append_single _ _ _ _ h]

/-- the verifier result never carries a cpf_verified key, on any path -/
theorem verify_result_has_no_cpf_verified (env : VerifyEnv) (cert : Cert) (chain : List Cert) :
    dictGet (verify_pdf_signature env cert chain).result "cpf_verified" = none := by
  rcases hET : extract_certificate_type cert with ⟨ct, cv⟩
  cases ct with
  | CNPJ => simp only [verify_pdf_signature, hET]; rfl
  | UNKNOWN => simp only [verify_pdf_signature, hET]; rfl
  | CPF =>
      simp only [verify_pdf_signature, hET]
      split_ifs <;> first | rfl | (split <;> rfl)

/-- case split on the verifier outcome: either the result says verified=False,
or it is exactly the success-shaped dict -/
theorem verify_result_cases (env : VerifyEnv) (cert : Cert) (chain : List Cert) :
    dictGet (verify_pdf_signature env cert chain).result "verified" = some (.vBool false) ∨
    (verify_pdf_signature env cert chain).result =
      (match (verify_certificate_chain env.strict env.now env.trusted env.net env.cache
          cert chain).revocation_details with
       | some d =>
           dictSet (dictSet (dictSet
             (dictSet (dictSet initialResult "verified" (.vBool true))
               "certificate_info" (.vDict (extract_certificate_info cert)))
             "revocation_method" (optStrPy d.method))
             "revocation_checked_at" (.vStr d.checked_at))
             "revocation_status" (optStrPy d.status)
       | none =>
           dictSet (dictSet initialResult "verified" (.vBool true))
             "certificate_info" (.vDict (extract_certificate_info cert))) := by
  rcases hET : extract_certificate_type cert with ⟨ct, cv⟩
  cases ct with
  | CNPJ => left; simp only [verify_pdf_signature, hET]; rfl
  | UNKNOWN => left; simp only [verify_pdf_signature, hET]; rfl
  | CPF =>
      simp only [verify_pdf_signature, hET]
      split_ifs <;> first | (left; rfl) | (right; rfl)

/-- C10: the task reads result.get("cpf_verified") to populate
verified_cpf_from_certificate, but the verifier never writes that key: on
every approved run the stored flag is False and the cpf_extraction step of the
custody evidence built for it is recorded as skipped, even when the
certificate carried a CPF that was extracted successfully. -/
theorem cpf_verified_flag_never_set (env : VerifyEnv) (cert : Cert) (chain : List Cert)
    (sig : Signature) (pet : Petition) (ns nc na ng : Int) (url : String) :
    dictGet (verify_pdf_signature env cert chain).result "cpf_verified" = none ∧
    (pyTruthy (dictGet (verify_pdf_signature env cert chain).result "verified") = true →
      (verify_signature_task env cert chain sig pet ns nc na ng
        url).1.1.verified_cpf_from_certificate = false ∧
      ∃ ev, (verify_signature_task env cert chain sig pet ns nc na ng
          url).1.1.verification_evidence = some ev ∧
        evidenceStepStatus ev "cpf_extraction" = some (.jStr "skipped")) := by
  refine ⟨verify_result_has_no_cpf_verified env cert chain, fun hv => ?_⟩
  rcases verify_result_cases env cert chain with hfalse | hsucc
  · rw [hfalse] at hv
    simp [pyTruthy] at hv
  · rcases hrd : (verify_certificate_chain env.strict env.now env.trusted env.net env.cache
        cert chain).revocation_details with _ | d
    · rw [hrd] at hsucc
      simp only [verify_signature_task, task_after_verification, hsucc]
      refine ⟨rfl, _, rfl, rfl⟩
    · rw [hrd] at hsucc
      simp only [verify_signature_task, task_after_verification, hsucc]
      refine ⟨rfl, _, rfl, rfl⟩

theorem cpf_verified_flag_never_set_witness :
    dictGet (verify_pdf_signature ⟨true, 0, [rootFx], noNet, cacheRaiz [], true⟩ certCPFfx
      [certCPFfx]).result "cpf_verified" = none ∧
    (verify_signature_task ⟨true, 0, [rootFx], noNet, cacheRaiz [], true⟩ certCPFfx [certCPFfx]
      sigFx petFx 0 1 2 3 "u").1.1.verified_cpf_from_certificate = false ∧
    ∃ ev, (verify_signature_task ⟨true, 0, [rootFx], noNet, cacheRaiz [], true⟩ certCPFfx
        [certCPFfx] sigFx petFx 0 1 2 3 "u").1.1.verification_evidence = some ev ∧
      evidenceStepStatus ev "cpf_extraction" = some (.jStr "skipped") :=
  ⟨(cpf_verified_flag_never_set ⟨true, 0, [rootFx], noNet, cacheRaiz [], true⟩ certCPFfx
      [certCPFfx] sigFx petFx 0 1 2 3 "u").1,
   ((cpf_verified_flag_never_set ⟨true, 0, [rootFx], noNet, cacheRaiz [], true⟩ certCPFfx
      [certCPFfx] sigFx petFx 0 1 2 3 "u").2 rfl).1,
   ((cpf_verified_flag_never_set ⟨true, 0, [rootFx], noNet, cacheRaiz [], true⟩ certCPFfx
      [certCPFfx] sigFx petFx 0 1 2 3 "u").2 rfl).2⟩

/-- C1, counterexample: regenerating the custody certificate for the very same
unchanged Signature record at a later clock reading produces a different
verificationHash, because build_verification_evidence embeds the evidence
build time (timezone.now().isoformat()) in the hashed document. -/
theorem custody_regeneration_changes_hash :
    (generate_custody_certificate 1 "u" (generate_custody_certificate 0 "u"
      sigFx)).verification_hash ≠
    (generate_custody_certificate 0 "u" sigFx).verification_hash := by
  have key : ∀ (t : Int) (u : String) (s : Signature),
      (generate_custody_certificate t u s).verification_hash =
        some (sha256HexPieces (dumpsJson (build_verification_evidence t s))) := by
    intro t u s
    show some (calculate_verification_hash (build_verification_evidence t s)) = _
    rw [calculate_verification_hash_pieces]
  rw [key, key]
  have h1 : sha256HexPieces (dumpsJson (build_verification_evidence 1
      (generate_custody_certificate 0 "u" sigFx))) =
      "5782b1a9057ef538f26a319afbc98687c7036a995542b1f41ff42925d7c1359e" := by decide
  have h2 : sha256HexPieces (dumpsJson (build_verification_evidence 0 sigFx)) =
      "4327866bfa51a93706adc46d0095d63087aa1446c742c60df202e44205f2a35a" := by decide
  rw [h1, h2]
  intro h
  exact absurd (Option.some.inj h) (by decide)

/-- C1 (amended): generating the custody certificate is deterministic in the
signature fields and the clock reading: two generations from an unchanged
Signature yield the same verificationHash whenever the evidence-build
timestamp is the same, the hash of a regeneration depends only on the
original fields and the new clock reading (none of the custody fields the
first run wrote feed the evidence), and each run updates the generation
timestamp; with different clock readings the hashes differ, since the
evidence embeds the build time. -/
theorem custody_regeneration_idempotent_at_fixed_clock (t t2 : Int) (u1 u2 : String)
    (s : Signature) :
    (generate_custody_certificate t u2 (generate_custody_certificate t u1
      s)).verification_hash = (generate_custody_certificate t u1 s).verification_hash ∧
    (generate_custody_certificate t2 u2 (generate_custody_certificate t u1
      s)).verification_hash =
      some (calculate_verification_hash (build_verification_evidence t2 s)) ∧
    (generate_custody_certificate t u1 s).certificate_generated_at = some t :=
  ⟨rfl, rfl, rfl⟩
